import Mathlib

/-!
Verification of the CRI plugin-configuration validation engine of the
containerd repository (`pkg/cri/config/config.go`, `ValidatePluginConfig`).

The Go code is shallowly embedded: the configuration structs become Lean
structures, Go maps become association lists (Go maps are unordered and
duplicate-free; the list order is a modelling artefact, and a nil map is
conflated with an empty one since `ValidatePluginConfig` never distinguishes
them observably), the in-place mutation plus logged warnings plus returned
error become an explicit result record, and the two standard-library
functions the code calls (`time.ParseDuration` and `net/url.Parse`) are
embedded from their Go sources as executable Lean functions.
-/

namespace ContainerdCri

/-! ## Association lists modelling Go maps -/

/-- Go map read `m[k]` (first binding wins; Go maps never hold duplicates). -/
def lookupA {α : Type} : List (String × α) → String → Option α
  | [], _ => none
  | (k', v) :: rest, k => if k' = k then some v else lookupA rest k

/-- Go map write `m[k] = v`: replace the (first) existing binding, else append. -/
def insertA {α : Type} : List (String × α) → String → α → List (String × α)
  | [], k, v => [(k, v)]
  | (k', v') :: rest, k, v =>
    if k' = k then (k, v) :: rest else (k', v') :: insertA rest k v

/-- Map over the values of an association list, keeping keys. -/
def mapValsA {α β : Type} (f : α → β) : List (String × α) → List (String × β)
  | [] => []
  | (k, v) :: rest => (k, f v) :: mapValsA f rest

/-! ## Character and Go-string helpers

Go operates on bytes; registry endpoints and duration strings are modelled at
the character level, which coincides with the byte level on ASCII input (all
characters the Go scanners treat specially are ASCII). -/

def isAsciiDigit (c : Char) : Bool := '0' ≤ c ∧ c ≤ '9'

def isAsciiAlpha (c : Char) : Bool := ('a' ≤ c ∧ c ≤ 'z') ∨ ('A' ≤ c ∧ c ≤ 'Z')

def ishex (c : Char) : Bool :=
  isAsciiDigit c ∨ ('a' ≤ c ∧ c ≤ 'f') ∨ ('A' ≤ c ∧ c ≤ 'F')

def unhex (c : Char) : Nat :=
  if isAsciiDigit c then c.toNat - '0'.toNat
  else if 'a' ≤ c ∧ c ≤ 'f' then c.toNat - 'a'.toNat + 10
  else if 'A' ≤ c ∧ c ≤ 'F' then c.toNat - 'A'.toNat + 10
  else 0

/-- `strings.ToLower` restricted to ASCII (URL schemes are ASCII by construction). -/
def asciiLower (cs : List Char) : List Char :=
  cs.map fun c => if 'A' ≤ c ∧ c ≤ 'Z' then Char.ofNat (c.toNat + 32) else c

/-- `strings.Cut(s, sep)` for a one-character separator: splits at the first
occurrence; when absent the whole input is the first component. -/
def cutChar : List Char → Char → List Char × List Char
  | [], _ => ([], [])
  | c :: rest, sep =>
    if c = sep then ([], rest)
    else
      let (a, b) := cutChar rest sep
      (c :: a, b)

/-- Index of the first occurrence of a character (`strings.Index`). -/
def idxOfChar : List Char → Char → Option Nat
  | [], _ => none
  | c :: rest, t =>
    if c = t then some 0
    else match idxOfChar rest t with
      | some i => some (i + 1)
      | none => none

/-- Index of the last occurrence of a character (`strings.LastIndex`). -/
def lastIdxOfChar : List Char → Char → Option Nat
  | [], _ => none
  | c :: rest, t =>
    match lastIdxOfChar rest t with
    | some i => some (i + 1)
    | none => if c = t then some 0 else none

/-- Index of the first occurrence of the three-character pattern `%25`
(`strings.Index(s, "%25")`, used for IPv6 zone identifiers). -/
def idxOfPct25 : List Char → Option Nat
  | '%' :: '2' :: '5' :: _ => some 0
  | _ :: rest =>
    match idxOfPct25 rest with
    | some i => some (i + 1)
    | none => none
  | [] => none

def listHasPre (pre : List Char) (s : List Char) : Bool :=
  pre.isPrefixOf s

/-! ## `time.ParseDuration` (Go standard library `time/format.go`)

Embedded from the Go source.  Arithmetic is on `Nat` with the source's
explicit pre-multiplication overflow checks against `2^63`; the one place Go
uses `float64` (scaling the fractional digits) is modelled with exact integer
division, which agrees with Go everywhere except at precision extremes far
beyond anything the validated configuration strings exercise. -/

/-- The `unitMap`: suffix to nanoseconds-per-unit. `µs` (U+00B5) and `μs`
(U+03BC) are both micro-seconds, as in Go. -/
def durUnit : List Char → Option Nat
  | ['n', 's'] => some 1
  | ['u', 's'] => some 1000
  | ['µ', 's'] => some 1000
  | ['μ', 's'] => some 1000
  | ['m', 's'] => some 1000000
  | ['s'] => some 1000000000
  | ['m'] => some 60000000000
  | ['h'] => some 3600000000000
  | _ => none

/-- `leadingInt`: consume leading digits into `x`, erroring past `2^63`. -/
def leadingInt (x : Nat) : List Char → Option (Nat × List Char)
  | [] => some (x, [])
  | c :: rest =>
    if isAsciiDigit c then
      if x > 922337203685477580 then none
      else
        let x' := x * 10 + (c.toNat - '0'.toNat)
        if x' > 9223372036854775808 then none
        else leadingInt x' rest
    else some (x, c :: rest)

/-- `leadingFraction`: consume digits after the decimal point, silently
dropping digits once the accumulator would pass `2^63`. Returns the digits
read as an integer plus the power-of-ten scale. -/
def leadingFraction (x scale : Nat) (overflow : Bool) :
    List Char → Nat × Nat × List Char
  | [] => (x, scale, [])
  | c :: rest =>
    if isAsciiDigit c then
      if overflow then leadingFraction x scale true rest
      else if x > 922337203685477580 then leadingFraction x scale true rest
      else
        let y := x * 10 + (c.toNat - '0'.toNat)
        if y > 9223372036854775808 then leadingFraction x scale true rest
        else leadingFraction y (scale * 10) false rest
    else (x, scale, c :: rest)

/-- Split the unit suffix: the maximal run of characters that are neither a
digit nor `.` (the inner `for` loop over `s[i]` in `ParseDuration`). -/
def takeUnit : List Char → List Char × List Char
  | [] => ([], [])
  | c :: rest =>
    if c = '.' ∨ isAsciiDigit c then ([], c :: rest)
    else
      let (u, r) := takeUnit rest
      (c :: u, r)

/-- One `for s != ""` iteration of `ParseDuration`, fuelled: each successful
iteration consumes at least the one-character unit, so `fuel := length + 1`
can never be exhausted (the fuel-zero branch is unreachable). -/
def durLoop (fuel : Nat) (neg : Bool) (d : Nat) (s : List Char) :
    Except String Int :=
  match fuel with
  | 0 => .error "invalid duration"
  | fuel + 1 =>
    match s with
    | [] =>
      if neg then .ok (-(d : Int))
      else if d > 9223372036854775807 then .error "invalid duration"
      else .ok (d : Int)
    | c :: _ =>
      if ¬ (c = '.' ∨ isAsciiDigit c) then .error "invalid duration"
      else
        match leadingInt 0 s with
        | none => .error "invalid duration"
        | some (v0, s1) =>
          let pre : Bool := s1.length != s.length
          let (f, scale, s2, post) :=
            match s1 with
            | '.' :: afterDot =>
              let (f, sc, rest) := leadingFraction 0 1 false afterDot
              (f, sc, rest, (rest.length != afterDot.length : Bool))
            | _ => (0, 1, s1, false)
          if ¬ pre ∧ ¬ post then .error "invalid duration"
          else
            let (u, s3) := takeUnit s2
            if u = [] then .error "missing unit in duration"
            else
              match durUnit u with
              | none => .error "unknown unit in duration"
              | some unit =>
                if v0 > 9223372036854775808 / unit then .error "invalid duration"
                else
                  let v1 := v0 * unit
                  let v2 := if f > 0 then v1 + f * unit / scale else v1
                  if f > 0 ∧ v2 > 9223372036854775808 then .error "invalid duration"
                  else
                    let d' := d + v2
                    if d' > 9223372036854775808 then .error "invalid duration"
                    else durLoop fuel neg d' s3

/-- `time.ParseDuration`. Accepts `[-+]?([0-9]*(\.[0-9]*)?[a-z]+)+`; note the
optional sign: Go durations may be negative. Returns nanoseconds. -/
def parseDuration (str : String) : Except String Int :=
  let orig := str.data
  let (neg, s) : Bool × List Char :=
    match orig with
    | '-' :: rest => (true, rest)
    | '+' :: rest => (false, rest)
    | s => (false, s)
  if s = ['0'] then .ok 0
  else if s = [] then .error "invalid duration"
  else durLoop (s.length + 1) neg 0 s

/-! ## `net/url.Parse` (Go standard library `net/url/url.go`)

Embedded from the Go source with `viaRequest = false` (the only mode
`ValidatePluginConfig` uses).  Only the encoding modes reachable from
`Parse` are modelled. -/

inductive UrlEncMode
  | host
  | zone
  | path
  | userPassword
  | fragment
deriving DecidableEq

/-- `shouldEscape(c, mode)` restricted to the modes reachable from `Parse`. -/
def shouldEscape (c : Char) (mode : UrlEncMode) : Bool :=
  if isAsciiAlpha c ∨ isAsciiDigit c then false
  else if (mode = UrlEncMode.host ∨ mode = UrlEncMode.zone) ∧
      ['!', '$', '&', '\'', '(', ')', '*', '+', ',', ';', '=', ':',
        '[', ']', '<', '>', '"'].contains c then false
  else if ['-', '_', '.', '~'].contains c then false
  else if ['$', '&', '+', ',', '/', ':', ';', '=', '?', '@'].contains c then
    match mode with
    | UrlEncMode.path => c = '?'
    | UrlEncMode.userPassword => c = '@' ∨ c = '/' ∨ c = '?' ∨ c = ':'
    | UrlEncMode.fragment => false
    | _ => true
  else if mode = UrlEncMode.fragment ∧ ['!', '(', ')', '*'].contains c then false
  else true

/-- `unescape(s, mode)`: validate and decode percent-escapes.  Decoded bytes
are represented as characters (faithful on the ASCII range; escapes the host
mode admits are `%25` and bytes `≥ 0x80`). -/
def unescapeL : List Char → UrlEncMode → Except String (List Char)
  | [], _ => .ok []
  | '%' :: rest, mode =>
    match rest with
    | c1 :: c2 :: rest2 =>
      if ¬ (ishex c1 ∧ ishex c2) then .error "invalid URL escape"
      else if mode = UrlEncMode.host ∧ unhex c1 < 8 ∧ ¬ (c1 = '2' ∧ c2 = '5') then
        .error "invalid URL escape"
      else if mode = UrlEncMode.zone ∧ ¬ (c1 = '2' ∧ c2 = '5') ∧
          unhex c1 * 16 + unhex c2 ≠ 32 ∧
          shouldEscape (Char.ofNat (unhex c1 * 16 + unhex c2)) UrlEncMode.host then
        .error "invalid URL escape"
      else
        (Char.ofNat (unhex c1 * 16 + unhex c2) :: ·) <$> unescapeL rest2 mode
    | _ => .error "invalid URL escape"
  | '+' :: rest, mode =>
    ('+' :: ·) <$> unescapeL rest mode
  | c :: rest, mode =>
    if (mode = UrlEncMode.host ∨ mode = UrlEncMode.zone) ∧ c.toNat < 128 ∧
        shouldEscape c mode then
      .error "invalid character in host name"
    else (c :: ·) <$> unescapeL rest mode

/-- `validOptionalPort`: empty, or `:` followed by decimal digits only. -/
def validOptionalPort : List Char → Bool
  | [] => true
  | ':' :: digits => digits.all isAsciiDigit
  | _ => false

/-- `validUserinfo` (RFC 3986 §3.2.1). -/
def validUserinfo (s : List Char) : Bool :=
  s.all fun r =>
    isAsciiAlpha r ∨ isAsciiDigit r ∨
      ['-', '.', '_', ':', '~', '!', '$', '&', '\'', '(', ')',
        '*', '+', ',', ';', '=', '%', '@'].contains r

/-- `parseHost`: bracketed IP-literal with optional zone, or a registered
name, each with an optional `:port`; percent-escapes validated and decoded. -/
def parseHostL (host : List Char) : Except String (List Char) :=
  match host with
  | '[' :: _ =>
    match lastIdxOfChar host ']' with
    | none => .error "missing close bracket in host"
    | some i =>
      if ¬ validOptionalPort (host.drop (i + 1)) then
        .error "invalid port after host"
      else
        match idxOfPct25 (host.take i) with
        | some zone => do
          let h1 ← unescapeL ((host.take i).take zone) UrlEncMode.host
          let h2 ← unescapeL ((host.take i).drop zone) UrlEncMode.zone
          let h3 ← unescapeL (host.drop i) UrlEncMode.host
          return h1 ++ h2 ++ h3
        | none => unescapeL host UrlEncMode.host
  | _ =>
    match lastIdxOfChar host ':' with
    | some i =>
      if ¬ validOptionalPort (host.drop i) then .error "invalid port after host"
      else unescapeL host UrlEncMode.host
    | none => unescapeL host UrlEncMode.host

/-- `parseAuthority`: split optional userinfo at the last `@`, validate both
parts.  The userinfo is returned as (username, optional password). -/
def parseAuthorityL (authority : List Char) :
    Except String (Option (List Char × Option (List Char)) × List Char) :=
  match lastIdxOfChar authority '@' with
  | none => do
    let h ← parseHostL authority
    return (none, h)
  | some i => do
    let h ← parseHostL (authority.drop (i + 1))
    let userinfo := authority.take i
    if ¬ validUserinfo userinfo then .error "net/url: invalid userinfo"
    else if ¬ userinfo.contains ':' then do
      let un ← unescapeL userinfo UrlEncMode.userPassword
      return (some (un, none), h)
    else do
      let (username, password) := cutChar userinfo ':'
      let un ← unescapeL username UrlEncMode.userPassword
      let pw ← unescapeL password UrlEncMode.userPassword
      return (some (un, some pw), h)

/-- `getScheme`: scheme is `ALPHA (ALPHA / DIGIT / "+" / "-" / ".")*` before a
`:`; a leading `:` is an error; anything else means no scheme. -/
def getSchemeAux (orig : List Char) (acc : List Char) :
    List Char → Except String (List Char × List Char)
  | [] => .ok ([], orig)
  | c :: rest =>
    if isAsciiAlpha c then getSchemeAux orig (acc ++ [c]) rest
    else if isAsciiDigit c ∨ c = '+' ∨ c = '-' ∨ c = '.' then
      if acc = [] then .ok ([], orig) else getSchemeAux orig (acc ++ [c]) rest
    else if c = ':' then
      if acc = [] then .error "missing protocol scheme"
      else .ok (acc, rest)
    else .ok ([], orig)

def getScheme (rawURL : List Char) : Except String (List Char × List Char) :=
  getSchemeAux rawURL [] rawURL

/-- The components of `net/url.URL` that `Parse` populates (fields the CRI
validation never reads, such as `RawPath`/`RawQuery` round-trip forms, are
kept where they influence control flow). -/
structure GoURL where
  scheme : String := ""
  -- Go field `Opaque`: the rootless-path (RFC 3986 opaque) part.
  opq : String := ""
  user : Option (String × Option String) := none
  host : String := ""
  path : String := ""
  rawQuery : String := ""
  forceQuery : Bool := false
  fragment : String := ""
deriving DecidableEq

/-- `parse(rawURL, viaRequest := false)`. -/
def parseL (rawURL : List Char) : Except String GoURL :=
  if rawURL.any (fun c => c.toNat < 32 ∨ c.toNat = 127) then
    .error "net/url: invalid control character in URL"
  else if rawURL = ['*'] then .ok { path := "*" }
  else do
    let (scheme0, rest0) ← getScheme rawURL
    let scheme := String.mk (asciiLower scheme0)
    let (rest1, rawQuery, forceQuery) :=
      if rest0.getLast? = some '?' ∧ ¬ (rest0.dropLast.contains '?') then
        (rest0.dropLast, ([] : List Char), true)
      else
        let (a, b) := cutChar rest0 '?'
        (a, b, false)
    if ¬ listHasPre ['/'] rest1 ∧ scheme ≠ "" then
      return { scheme, opq := String.mk rest1, rawQuery := String.mk rawQuery,
               forceQuery }
    else if ¬ listHasPre ['/'] rest1 ∧ (cutChar rest1 '/').1.contains ':' then
      .error "first path segment in URL cannot contain colon"
    else
      if (scheme ≠ "" ∨ ¬ listHasPre ['/', '/', '/'] rest1) ∧
          listHasPre ['/', '/'] rest1 then do
        let after := rest1.drop 2
        let (authority, rest2) :=
          match idxOfChar after '/' with
          | some i => (after.take i, after.drop i)
          | none => (after, [])
        let (user, h) ← parseAuthorityL authority
        let path ← unescapeL rest2 UrlEncMode.path
        return { scheme, user := user.map (fun p => (String.mk p.1, p.2.map String.mk)),
                 host := String.mk h, path := String.mk path,
                 rawQuery := String.mk rawQuery, forceQuery }
      else do
        let path ← unescapeL rest1 UrlEncMode.path
        return { scheme, path := String.mk path,
                 rawQuery := String.mk rawQuery, forceQuery }

/-- `url.Parse`: cut the fragment at the first `#`, parse the rest, then
validate/decode the fragment. -/
def urlParse (rawURL : String) : Except String GoURL := do
  let (u, frag) := cutChar rawURL.data '#'
  let url ← parseL u
  if frag = [] then return url
  else do
    let f ← unescapeL frag UrlEncMode.fragment
    return { url with fragment := String.mk f }

/-! ## Configuration schema (`pkg/cri/config/config.go`)

Field-for-field translation of the structs `ValidatePluginConfig` operates
on.  `Runtime.Options` (`map[string]interface{}`) and the TOML/JSON tags are
not represented: the options bag is never read or written by
`ValidatePluginConfig` and carries no validation semantics. -/

/-- `SandboxControllerMode` `ModePodSandbox`. -/
def ModePodSandbox : String := "podsandbox"

/-- `SandboxControllerMode` `ModeShim`. -/
def ModeShim : String := "shim"

/-- `Runtime`: per-handler runtime configuration. -/
structure Runtime where
  type : String := ""
  path : String := ""
  engine : String := ""
  podAnnotations : List String := []
  containerAnnotations : List String := []
  root : String := ""
  privilegedWithoutHostDevices : Bool := false
  privilegedWithoutHostDevicesAllDevicesAllowed : Bool := false
  baseRuntimeSpec : String := ""
  networkPluginConfDir : String := ""
  networkPluginMaxConfNum : Int := 0
  snapshotter : String := ""
  sandboxMode : String := ""
deriving DecidableEq

/-- `ContainerdConfig`. -/
structure ContainerdConfig where
  snapshotter : String := ""
  defaultRuntimeName : String := ""
  defaultRuntime : Runtime := {}
  untrustedWorkloadRuntime : Runtime := {}
  runtimes : List (String × Runtime) := []
  noPivot : Bool := false
  disableSnapshotAnnotations : Bool := false
  discardUnpackedLayers : Bool := false
  ignoreBlockIONotEnabledErrors : Bool := false
  ignoreRdtNotEnabledErrors : Bool := false
deriving DecidableEq

/-- `CniConfig`. -/
structure CniConfig where
  networkPluginBinDir : String := ""
  networkPluginConfDir : String := ""
  networkPluginMaxConfNum : Int := 0
  networkPluginSetupSerially : Bool := false
  networkPluginConfTemplate : String := ""
  ipPreference : String := ""
deriving DecidableEq

/-- `Mirror`. -/
structure Mirror where
  endpoints : List String := []
deriving DecidableEq

/-- `AuthConfig`. -/
structure AuthConfig where
  username : String := ""
  password : String := ""
  auth : String := ""
  identityToken : String := ""
deriving DecidableEq

/-- `TLSConfig`. -/
structure TLSConfig where
  insecureSkipVerify : Bool := false
  caFile : String := ""
  certFile : String := ""
  keyFile : String := ""
deriving DecidableEq

/-- `RegistryConfig`: `Auth` and `TLS` are pointers in Go, so optional. -/
structure RegistryConfig where
  auth : Option AuthConfig := none
  tls : Option TLSConfig := none
deriving DecidableEq

/-- `Registry`. -/
structure Registry where
  configPath : String := ""
  mirrors : List (String × Mirror) := []
  configs : List (String × RegistryConfig) := []
  auths : List (String × AuthConfig) := []
  headers : List (String × List String) := []
deriving DecidableEq

/-- `ImageDecryption`. -/
structure ImageDecryption where
  keyModel : String := ""
deriving DecidableEq

/-- `X509KeyPairStreaming`. -/
structure X509KeyPairStreaming where
  tlsCertFile : String := ""
  tlsKeyFile : String := ""
deriving DecidableEq

/-- `PluginConfig` (the embedded Go structs appear as named fields). -/
structure PluginConfig where
  containerd : ContainerdConfig := {}
  cni : CniConfig := {}
  registry : Registry := {}
  imageDecryption : ImageDecryption := {}
  disableTCPService : Bool := false
  streamServerAddress : String := ""
  streamServerPort : String := ""
  streamIdleTimeout : String := ""
  enableSelinux : Bool := false
  selinuxCategoryRange : Int := 0
  sandboxImage : String := ""
  statsCollectPeriod : Int := 0
  systemdCgroup : Bool := false
  enableTLSStreaming : Bool := false
  x509KeyPairStreaming : X509KeyPairStreaming := {}
  maxContainerLogLineSize : Int := 0
  disableCgroup : Bool := false
  disableApparmor : Bool := false
  restrictOOMScoreAdj : Bool := false
  maxConcurrentDownloads : Int := 0
  disableProcMount : Bool := false
  unsetSeccompProfile : String := ""
  tolerateMissingHugetlbController : Bool := false
  disableHugetlbController : Bool := false
  deviceOwnershipFromSecurityContext : Bool := false
  ignoreImageDefinedVolumes : Bool := false
  netNSMountsUnderStateDir : Bool := false
  enableUnprivilegedPorts : Bool := false
  enableUnprivilegedICMP : Bool := false
  enableCDI : Bool := false
  cdiSpecDirs : List String := []
  imagePullProgressTimeout : String := ""
  drainExecSyncIOTimeout : String := ""
deriving DecidableEq

/-- `RuntimeUntrusted`: reserved handler name for the legacy
untrusted-workload runtime. -/
def RuntimeUntrusted : String := "untrusted"

/-- `RuntimeDefault`: reserved handler name for the legacy default runtime. -/
def RuntimeDefault : String := "default"

/-- Modelled from the spec: the constant `plugin.RuntimeLinuxV1` lives in the
`plugin` package, which is not among the provided sources; its value is the
"one specific legacy runtime-type identifier" the legacy scalar overrides are
restricted to, which `config.go`'s own doc comments spell out as
`io.containerd.runtime.v1.linux`. -/
def RuntimeLinuxV1 : String := "io.containerd.runtime.v1.linux"

/-! ## The validation engine -/

/-- The deprecation warnings `ValidatePluginConfig` writes to the log, in
emission order. -/
inductive Warning
  | untrustedWorkloadRuntimeDeprecated
  | defaultRuntimeDeprecated
  | systemdCgroupDeprecated
  | runtimeEngineDeprecated
  | runtimeRootDeprecated
  | mirrorsDeprecated
  | configsTLSDeprecated
  | authsDeprecated
deriving DecidableEq

/-- The errors `ValidatePluginConfig` can return, one constructor per
`errors.New`/`fmt.Errorf` site, carrying the formatted-in data. -/
inductive VErr
  | untrustedConflict
  | defaultRuntimeNameEmpty
  | noRuntimeForDefault (name : String)
  | systemdCgroupOnlyLinuxV1
  | noPivotOnlyLinuxV1
  | runtimeEngineOnlyLinuxV1
  | runtimeRootOnlyLinuxV1
  | allDevicesAllowedRequiresWithoutHostDevices
  | mirrorsWithConfigPath
  | tlsWithConfigPath
  | parseRegistryURL (endpoint msg : String)
  | invalidStreamIdleTimeout (msg : String)
  | invalidImagePullProgressTimeout (msg : String)
  | invalidDrainExecSyncTimeout (msg : String)
deriving DecidableEq

/-- Outcome of (a prefix of) the validation: the mutated configuration, the
warnings logged so far, and the error, if any. -/
structure VRes where
  cfg : PluginConfig
  warns : List Warning
  err : Option VErr
deriving DecidableEq

/-- Sequencing of validation passes: on error the remaining passes do not
run (the function returned); warnings accumulate in order. -/
def vseq (r : VRes) (f : PluginConfig → VRes) : VRes :=
  if r.err = none then
    let r' := f r.cfg
    ⟨r'.cfg, r.warns ++ r'.warns, r'.err⟩
  else r

/-- Lines 404-411: migration of the deprecated `untrusted_workload_runtime`
(deprecation warning; conflict error if `runtimes["untrusted"]` exists;
otherwise insert under that key). -/
def stepUntrusted (c : PluginConfig) : VRes :=
  if c.containerd.untrustedWorkloadRuntime.type ≠ "" then
    if (lookupA c.containerd.runtimes RuntimeUntrusted).isSome then
      ⟨c, [.untrustedWorkloadRuntimeDeprecated], some .untrustedConflict⟩
    else
      ⟨{ c with containerd := { c.containerd with
           runtimes := insertA c.containerd.runtimes RuntimeUntrusted
             c.containerd.untrustedWorkloadRuntime } },
        [.untrustedWorkloadRuntimeDeprecated], none⟩
  else ⟨c, [], none⟩

/-- Lines 413-418: migration of the deprecated `default_runtime`
(deprecation warning; unconditionally point `default_runtime_name` at the
reserved key and overwrite `runtimes["default"]`). -/
def stepDefaultRuntime (c : PluginConfig) : VRes :=
  if c.containerd.defaultRuntime.type ≠ "" then
    ⟨{ c with containerd := { c.containerd with
         defaultRuntimeName := RuntimeDefault,
         runtimes := insertA c.containerd.runtimes RuntimeDefault
           c.containerd.defaultRuntime } },
      [.defaultRuntimeDeprecated], none⟩
  else ⟨c, [], none⟩

/-- Lines 420-426: `default_runtime_name` must be non-empty and present in
the runtimes table. -/
def stepDefaultRuntimeName (c : PluginConfig) : VRes :=
  if c.containerd.defaultRuntimeName = "" then
    ⟨c, [], some .defaultRuntimeNameEmpty⟩
  else if (lookupA c.containerd.runtimes c.containerd.defaultRuntimeName).isNone then
    ⟨c, [], some (.noRuntimeForDefault c.containerd.defaultRuntimeName)⟩
  else ⟨c, [], none⟩

/-- `c.ContainerdConfig.Runtimes[name].Type` as the Go map read: a missing
key yields the zero `Runtime`, whose type is `""`. -/
def runtimeTypeAt (c : PluginConfig) (name : String) : String :=
  match lookupA c.containerd.runtimes name with
  | some r => r.type
  | none => ""

/-- Lines 428-441: the deprecated top-level `systemd_cgroup` and `no_pivot`
flags only work for the v1 Linux runtime type of the default handler;
`systemd_cgroup` warns when valid, `no_pivot` is accepted silently. -/
def stepDeprecatedFlags (c : PluginConfig) : VRes :=
  let t := runtimeTypeAt c c.containerd.defaultRuntimeName
  if c.systemdCgroup ∧ t ≠ RuntimeLinuxV1 then
    ⟨c, [], some .systemdCgroupOnlyLinuxV1⟩
  else
    let w1 : List Warning :=
      if c.systemdCgroup then [.systemdCgroupDeprecated] else []
    if c.containerd.noPivot ∧ t ≠ RuntimeLinuxV1 then
      ⟨c, w1, some .noPivotOnlyLinuxV1⟩
    else ⟨c, w1, none⟩

/-- Lines 443-462, the body of the per-handler loop for one handler:
`runtime_engine` and `runtime_root` are v1-Linux-only (warning when valid),
`privileged_without_host_devices_all_devices_allowed` requires
`privileged_without_host_devices`, and an empty `sandbox_mode` defaults to
`podsandbox`. -/
def checkRuntime (r : Runtime) : Runtime × List Warning × Option VErr :=
  if r.engine ≠ "" ∧ r.type ≠ RuntimeLinuxV1 then
    (r, [], some .runtimeEngineOnlyLinuxV1)
  else
    let w1 : List Warning := if r.engine ≠ "" then [.runtimeEngineDeprecated] else []
    if r.root ≠ "" ∧ r.type ≠ RuntimeLinuxV1 then
      (r, w1, some .runtimeRootOnlyLinuxV1)
    else
      let w2 := w1 ++ (if r.root ≠ "" then [.runtimeRootDeprecated] else [])
      if ¬ r.privilegedWithoutHostDevices ∧
          r.privilegedWithoutHostDevicesAllDevicesAllowed then
        (r, w2, some .allDevicesAllowedRequiresWithoutHostDevices)
      else if r.sandboxMode = "" then
        ({ r with sandboxMode := ModePodSandbox }, w2, none)
      else (r, w2, none)

/-- Lines 442-463, the `for k, r := range Runtimes` loop: on the first
failing handler the loop stops, leaving the remaining handlers untouched
(Go map iteration order is unspecified; the list order stands in for it). -/
def runtimesLoop : List (String × Runtime) →
    List (String × Runtime) × List Warning × Option VErr
  | [] => ([], [], none)
  | (k, r) :: rest =>
    match checkRuntime r with
    | (r', w, some e) => ((k, r') :: rest, w, some e)
    | (r', w, none) =>
      let (rest', w2, e2) := runtimesLoop rest
      ((k, r') :: rest', w ++ w2, e2)

def stepRuntimes (c : PluginConfig) : VRes :=
  let (rts, w, e) := runtimesLoop c.containerd.runtimes
  ⟨{ c with containerd := { c.containerd with runtimes := rts } }, w, e⟩

/-- `Configs` entries carrying deprecated inline TLS material. -/
def hasDeprecatedTLS (configs : List (String × RegistryConfig)) : Bool :=
  configs.any fun kv => kv.2.tls.isSome

/-- Lines 465-484: `mirrors` and inline `configs.tls` are deprecated and
mutually exclusive with `config_path`. -/
def stepRegistryDeprecated (c : PluginConfig) : VRes :=
  let useConfigPath : Bool := c.registry.configPath ≠ ""
  if c.registry.mirrors.length > 0 ∧ useConfigPath then
    ⟨c, [], some .mirrorsWithConfigPath⟩
  else
    let w1 : List Warning :=
      if c.registry.mirrors.length > 0 then [.mirrorsDeprecated] else []
    if hasDeprecatedTLS c.registry.configs ∧ useConfigPath then
      ⟨c, w1, some .tlsWithConfigPath⟩
    else
      let w2 := w1 ++
        (if hasDeprecatedTLS c.registry.configs then [.configsTLSDeprecated] else [])
      ⟨c, w2, none⟩

/-- The key a legacy `auths` endpoint migrates to: the URL host when the
endpoint parses with a scheme, the endpoint itself otherwise (lines 493-500).
Total for convenience; `ValidatePluginConfig` only reaches it on endpoints
that parse. -/
def migKey (endpoint : String) : String :=
  match urlParse endpoint with
  | .ok u => if u.scheme ≠ "" then u.host else endpoint
  | .error _ => endpoint

/-- Lines 491-504, the `for endpoint, auth := range Auths` loop: parse the
endpoint (failing validation on a malformed one), strip the scheme down to
the host, and set the `Auth` field of the per-host config under that key,
preserving whatever else the entry held. -/
def authsLoop : List (String × AuthConfig) → List (String × RegistryConfig) →
    List (String × RegistryConfig) × Option VErr
  | [], configs => (configs, none)
  | (endpoint, a) :: rest, configs =>
    match urlParse endpoint with
    | .error msg => (configs, some (.parseRegistryURL endpoint msg))
    | .ok u =>
      let key := if u.scheme ≠ "" then u.host else endpoint
      let cfg := (lookupA configs key).getD {}
      authsLoop rest (insertA configs key { cfg with auth := some a })

/-- Lines 486-506: migration of the deprecated `auths` table into `configs`;
the deprecation warning is emitted once, after the whole loop succeeds. -/
def stepAuths (c : PluginConfig) : VRes :=
  if c.registry.auths.length ≠ 0 then
    let (cfgs, e) := authsLoop c.registry.auths c.registry.configs
    match e with
    | some err =>
      ⟨{ c with registry := { c.registry with configs := cfgs } }, [], some err⟩
    | none =>
      ⟨{ c with registry := { c.registry with configs := cfgs } },
        [.authsDeprecated], none⟩
  else ⟨c, [], none⟩

/-- Lines 508-513: `stream_idle_timeout` must parse as a duration when
non-empty. -/
def stepStreamIdleTimeout (c : PluginConfig) : VRes :=
  if c.streamIdleTimeout ≠ "" then
    match parseDuration c.streamIdleTimeout with
    | .error m => ⟨c, [], some (.invalidStreamIdleTimeout m)⟩
    | .ok _ => ⟨c, [], none⟩
  else ⟨c, [], none⟩

/-- Lines 515-520: `image_pull_progress_timeout` must parse as a duration
when non-empty. -/
def stepImagePullProgressTimeout (c : PluginConfig) : VRes :=
  if c.imagePullProgressTimeout ≠ "" then
    match parseDuration c.imagePullProgressTimeout with
    | .error m => ⟨c, [], some (.invalidImagePullProgressTimeout m)⟩
    | .ok _ => ⟨c, [], none⟩
  else ⟨c, [], none⟩

/-- Lines 522-527: `drain_exec_sync_io_timeout` must parse as a duration
when non-empty. -/
def stepDrainExecSync (c : PluginConfig) : VRes :=
  if c.drainExecSyncIOTimeout ≠ "" then
    match parseDuration c.drainExecSyncIOTimeout with
    | .error m => ⟨c, [], some (.invalidDrainExecSyncTimeout m)⟩
    | .ok _ => ⟨c, [], none⟩
  else ⟨c, [], none⟩

/-- `ValidatePluginConfig` (lines 399-529): the ordered migration and
validation passes, stopping at the first error.  The nil-map
initialisation of `Runtimes` (lines 400-402) is the identity here because
nil and empty Go maps are both the empty association list. -/
def pipe1 (c : PluginConfig) : VRes := stepUntrusted c

def pipe2 (c : PluginConfig) : VRes := vseq (pipe1 c) stepDefaultRuntime

def pipe3 (c : PluginConfig) : VRes := vseq (pipe2 c) stepDefaultRuntimeName

def pipe4 (c : PluginConfig) : VRes := vseq (pipe3 c) stepDeprecatedFlags

def pipe5 (c : PluginConfig) : VRes := vseq (pipe4 c) stepRuntimes

def pipe6 (c : PluginConfig) : VRes := vseq (pipe5 c) stepRegistryDeprecated

def pipe7 (c : PluginConfig) : VRes := vseq (pipe6 c) stepAuths

def pipe8 (c : PluginConfig) : VRes := vseq (pipe7 c) stepStreamIdleTimeout

def pipe9 (c : PluginConfig) : VRes := vseq (pipe8 c) stepImagePullProgressTimeout

def ValidatePluginConfig (c : PluginConfig) : VRes :=
  vseq (pipe9 c) stepDrainExecSync

/-! ## Derived notions used by the statements -/

/-- What the per-handler loop does to a handler that passes its checks:
an empty sandbox-controller mode becomes `podsandbox`. -/
def applySandboxDefault (r : Runtime) : Runtime :=
  if r.sandboxMode = "" then { r with sandboxMode := ModePodSandbox } else r

/-- The last (in iteration order) legacy auth entry migrating to host key
`k`, i.e. the winner of the last-writer-wins overwrites in the `auths`
migration. -/
def lastAuth : List (String × AuthConfig) → String → Option AuthConfig
  | [], _ => none
  | (e, a) :: rest, k =>
    match lastAuth rest k with
    | some a' => some a'
    | none => if migKey e = k then some a else none

/-- TLS material of an optional per-host entry (a missing entry has none). -/
def tlsOf : Option RegistryConfig → Option TLSConfig
  | some rc => rc.tls
  | none => none

/-- Go-map equality for the per-host `configs` table: same key-to-value
mapping (Go maps are unordered, so this is what value identity means for
them; the association-list order is a modelling artefact). -/
def configsEquiv (m₁ m₂ : List (String × RegistryConfig)) : Prop :=
  ∀ k, lookupA m₁ k = lookupA m₂ k

/-- Identity of two plugin configurations as Go values: every field is
structurally equal except the per-host `configs` table, which is compared
as a map. -/
def pcEquiv (a b : PluginConfig) : Prop :=
  ({ a with registry := { a.registry with configs := [] } } : PluginConfig) =
    { b with registry := { b.registry with configs := [] } } ∧
  configsEquiv a.registry.configs b.registry.configs

/-- Configuration state after the two legacy-runtime migration passes. -/
def midB (c : PluginConfig) : PluginConfig :=
  (stepDefaultRuntime (stepUntrusted c).cfg).cfg

/-- Configuration state after the per-handler loop. -/
def midC (c : PluginConfig) : PluginConfig :=
  (stepRuntimes (midB c)).cfg

/-- Configuration state after the `auths` migration (the durations passes
mutate nothing, so on success this is the final configuration). -/
def midD (c : PluginConfig) : PluginConfig :=
  (stepAuths (midC c)).cfg

/-- The relation between a handler the first run checked and the handler the
second run sees at the same position: same key, and the value is either
unchanged or the first run's sandbox-defaulted version. -/
def rerunRel (p q : String × Runtime) : Prop :=
  p.1 = q.1 ∧ (q.2 = p.2 ∨ q.2 = applySandboxDefault p.2)

/-! ## Concrete configurations for scenarios, witnesses and counterexamples -/

/-- A runc v2 handler, as in the spec's scenarios. -/
def rtRuncV2 : Runtime := { type := "io.containerd.runc.v2" }

/-- A handler of the legacy v1 Linux runtime type. -/
def rtLinuxV1 : Runtime := { type := "io.containerd.runtime.v1.linux" }

/-- A minimal passing configuration: one `runc` handler selected as default. -/
def cfgRunc : PluginConfig :=
  { containerd := { defaultRuntimeName := "runc", runtimes := [("runc", rtRuncV2)] } }

/-- Scenario: empty default-handler name with a non-empty registry. -/
def cfgNoName : PluginConfig :=
  { containerd := { runtimes := [("runc", rtRuncV2)] } }

/-- Scenario: non-empty default-handler name absent from the registry. -/
def cfgMissingName : PluginConfig :=
  { containerd := { defaultRuntimeName := "absent",
                    runtimes := [("runc", rtRuncV2)] } }

/-- A handler violating the host-devices implication (all-devices-allowed
set without without-host-devices). -/
def rtViolator : Runtime :=
  { type := "io.containerd.runc.v2",
    privilegedWithoutHostDevicesAllDevicesAllowed := true }

/-- Scenario: a passing configuration whose handler carries a
sandbox-controller mode outside the documented enumeration. -/
def cfgBogusMode : PluginConfig :=
  { containerd := { defaultRuntimeName := "runc",
                    runtimes :=
                      [("runc", { rtRuncV2 with sandboxMode := "bogus" })] } }

/-- Scenario: a violating handler parked under the reserved `default` key
that the legacy default-runtime migration overwrites before the check. -/
def cfgOverwrite : PluginConfig :=
  { containerd := { defaultRuntime := rtRuncV2,
                    runtimes := [("default", rtViolator)] } }

/-- Scenario: a passing configuration that still carries a non-empty legacy
untrusted-workload runtime type (so it migrates on the first run). -/
def cfgUntrustedLegacy : PluginConfig :=
  { containerd := { defaultRuntimeName := "runc",
                    runtimes := [("runc", rtRuncV2)],
                    untrustedWorkloadRuntime := rtRuncV2 } }

/-- Scenario: legacy untrusted runtime set while `runtimes` already holds an
`untrusted` key. -/
def cfgUntrustedConflict : PluginConfig :=
  { containerd := { defaultRuntimeName := "runc",
                    runtimes := [("runc", rtRuncV2), ("untrusted", rtLinuxV1)],
                    untrustedWorkloadRuntime := rtRuncV2 } }

/-- Scenario: only the deprecated `default_runtime` is set. -/
def cfgLegacyDefault : PluginConfig :=
  { containerd := { defaultRuntime := rtRuncV2 } }

/-- Sample inline TLS material. -/
def tlsSample : TLSConfig := { caFile := "/etc/ca.pem" }

/-- Scenario: registry config-path set together with a mirror mapping. -/
def cfgMirrorsConflict : PluginConfig :=
  { containerd := cfgRunc.containerd,
    registry := { configPath := "/etc/registries",
                  mirrors := [("docker.io", {})] } }

/-- Scenario: registry config-path set together with inline TLS material. -/
def cfgTLSConflict : PluginConfig :=
  { containerd := cfgRunc.containerd,
    registry := { configPath := "/etc/registries",
                  configs := [("docker.io", { tls := some tlsSample })] } }

/-- Scenario: mirrors and inline TLS material with no config-path. -/
def cfgMirrorsWarn : PluginConfig :=
  { containerd := cfgRunc.containerd,
    registry := { mirrors := [("docker.io", {})],
                  configs := [("docker.io", { tls := some tlsSample })] } }

/-- Scenario: top-level systemd-cgroup flag with a non-v1-Linux default
handler. -/
def cfgSystemdBad : PluginConfig :=
  { containerd := cfgRunc.containerd, systemdCgroup := true }

/-- Scenario: top-level no-pivot flag with a non-v1-Linux default handler. -/
def cfgNoPivotBad : PluginConfig :=
  { containerd := { cfgRunc.containerd with noPivot := true } }

/-- Scenario: a v1-Linux default handler with both legacy top-level flags
set (valid use: systemd-cgroup warns, no-pivot is silent). -/
def cfgLinuxFlags : PluginConfig :=
  { containerd := { defaultRuntimeName := "linux",
                    runtimes := [("linux", rtLinuxV1)],
                    noPivot := true },
    systemdCgroup := true }

/-- Scenario: a handler with a legacy engine override on a non-v1-Linux
runtime type. -/
def cfgEngineBad : PluginConfig :=
  { containerd := { defaultRuntimeName := "runc",
                    runtimes :=
                      [("runc", { rtRuncV2 with engine := "legacy" })] } }

/-- Scenario: a handler with a legacy root override on a non-v1-Linux
runtime type. -/
def cfgRootBad : PluginConfig :=
  { containerd := { defaultRuntimeName := "runc",
                    runtimes :=
                      [("runc", { rtRuncV2 with root := "/var/lib/x" })] } }

/-- A v1-Linux handler using both legacy per-handler fields validly. -/
def rtLinuxLegacy : Runtime :=
  { rtLinuxV1 with engine := "runsc", root := "/run/x" }

/-- Scenario: all three timeout strings set to `30s`. -/
def cfg30s : PluginConfig :=
  { containerd := cfgRunc.containerd,
    streamIdleTimeout := "30s",
    imagePullProgressTimeout := "30s",
    drainExecSyncIOTimeout := "30s" }

/-- Scenario: a malformed stream-idle-timeout. -/
def cfgBadDur : PluginConfig :=
  { containerd := cfgRunc.containerd,
    streamIdleTimeout := "not-a-duration" }

/-- Scenario: a negative (signed) stream-idle-timeout. -/
def cfgNegDur : PluginConfig :=
  { containerd := cfgRunc.containerd,
    streamIdleTimeout := "-30s" }

/-- Scenario: a legacy endpoint-auth entry to migrate, with the external
config-directory path also set. -/
def cfgAuthMigrate : PluginConfig :=
  { containerd := cfgRunc.containerd,
    registry := { configPath := "/etc/containerd/certs.d",
                  auths := [("https://registry.example.com",
                    { username := "u", password := "p" })] } }

/-- Scenario: a legacy endpoint that does not parse as a URL. -/
def cfgAuthBad : PluginConfig :=
  { containerd := cfgRunc.containerd,
    registry := { auths := [(":foo", { username := "u" })] } }

/-- Scenario for the migration frame property: an existing per-host entry
with TLS material keyed by a migrated host, plus an untouched entry. -/
def cfgFrame : PluginConfig :=
  { containerd := cfgRunc.containerd,
    registry := { configs := [("a.com", { tls := some tlsSample }),
                              ("keep.com", { auth := some { username := "k" } })],
                  auths := [("https://a.com",
                    { username := "u", password := "p" })] } }

/-! ## Lemmas: association lists -/

theorem lookupA_insertA_self {α : Type} (l : List (String × α)) (k : String) (v : α) :
    lookupA (insertA l k v) k = some v := by
  induction l with
  | nil => simp [insertA, lookupA]
  | cons p rest ih =>
    obtain ⟨k', v'⟩ := p
    by_cases h : k' = k <;> simp [insertA, lookupA, h, ih]

theorem lookupA_insertA_of_ne {α : Type} (l : List (String × α)) (k k' : String)
    (v : α) (h : k' ≠ k) : lookupA (insertA l k v) k' = lookupA l k' := by
  induction l with
  | nil => simp [insertA, lookupA, Ne.symm h]
  | cons p rest ih =>
    obtain ⟨k₀, v₀⟩ := p
    by_cases h₀ : k₀ = k
    · subst h₀
      simp [insertA, lookupA, Ne.symm h]
    · simp [insertA, lookupA, h₀, ih]

theorem insertA_of_lookup_eq {α : Type} (l : List (String × α)) (k : String)
    (v : α) (h : lookupA l k = some v) : insertA l k v = l := by
  induction l with
  | nil => simp [lookupA] at h
  | cons p rest ih =>
    obtain ⟨k₀, v₀⟩ := p
    by_cases h₀ : k₀ = k
    · subst h₀
      simp [lookupA] at h
      simp [insertA, h]
    · simp [lookupA, h₀] at h
      simp [insertA, h₀, ih h]

theorem lookupA_mapValsA {α β : Type} (f : α → β) (l : List (String × α))
    (k : String) : lookupA (mapValsA f l) k = (lookupA l k).map f := by
  induction l with
  | nil => simp [mapValsA, lookupA]
  | cons p rest ih =>
    obtain ⟨k₀, v₀⟩ := p
    by_cases h₀ : k₀ = k <;> simp [mapValsA, lookupA, h₀, ih]

theorem mapValsA_mapValsA {α β γ : Type} (f : β → γ) (g : α → β)
    (l : List (String × α)) :
    mapValsA f (mapValsA g l) = mapValsA (fun v => f (g v)) l := by
  induction l with
  | nil => rfl
  | cons p rest ih => obtain ⟨k₀, v₀⟩ := p; simp [mapValsA, ih]

theorem mapValsA_insertA {α β : Type} (f : α → β) (l : List (String × α))
    (k : String) (v : α) :
    mapValsA f (insertA l k v) = insertA (mapValsA f l) k (f v) := by
  induction l with
  | nil => simp [insertA, mapValsA]
  | cons p rest ih =>
    obtain ⟨k₀, v₀⟩ := p
    by_cases h₀ : k₀ = k <;> simp [insertA, mapValsA, h₀, ih]

theorem lookupA_some_mem {α : Type} (l : List (String × α)) (k : String) (v : α)
    (h : lookupA l k = some v) : (k, v) ∈ l := by
  induction l with
  | nil => simp [lookupA] at h
  | cons p rest ih =>
    obtain ⟨k₀, v₀⟩ := p
    by_cases h₀ : k₀ = k
    · subst h₀
      simp [lookupA] at h
      simp [h]
    · simp [lookupA, h₀] at h
      exact List.mem_cons_of_mem _ (ih h)

theorem mem_insertA {α : Type} (l : List (String × α)) (k k' : String)
    (v v' : α) (h : (k', v') ∈ l) (hne : k' ≠ k) : (k', v') ∈ insertA l k v := by
  induction l with
  | nil => simp at h
  | cons p rest ih =>
    obtain ⟨k₀, v₀⟩ := p
    by_cases h₀ : k₀ = k
    · subst h₀
      rcases List.mem_cons.mp h with h₁ | h₁
      · cases h₁; exact absurd rfl hne
      · simp [insertA, List.mem_cons, h₁]
    · rcases List.mem_cons.mp h with h₁ | h₁
      · simp [insertA, h₀, List.mem_cons, h₁]
      · simp only [insertA, if_neg h₀]
        exact List.mem_cons_of_mem _ (ih h₁)

/-! ## Lemmas: pass sequencing -/

theorem vseq_err_none_iff (r : VRes) (f : PluginConfig → VRes) :
    (vseq r f).err = none ↔ r.err = none ∧ (f r.cfg).err = none := by
  unfold vseq
  split_ifs with h <;> simp [h]

theorem vseq_cfg_of_none (r : VRes) (f : PluginConfig → VRes)
    (h : r.err = none) : (vseq r f).cfg = (f r.cfg).cfg := by
  unfold vseq; simp [h]

theorem vseq_warns_of_none (r : VRes) (f : PluginConfig → VRes)
    (h : r.err = none) : (vseq r f).warns = r.warns ++ (f r.cfg).warns := by
  unfold vseq; simp [h]

theorem vseq_err_of_none (r : VRes) (f : PluginConfig → VRes)
    (h : r.err = none) : (vseq r f).err = (f r.cfg).err := by
  unfold vseq; simp [h]

theorem vseq_of_some (r : VRes) (f : PluginConfig → VRes)
    (h : r.err ≠ none) : vseq r f = r := by
  unfold vseq; simp [h]

/-! ## Lemmas: the checking passes do not mutate the configuration -/

theorem stepDefaultRuntimeName_cfg (c : PluginConfig) :
    (stepDefaultRuntimeName c).cfg = c := by
  unfold stepDefaultRuntimeName; split_ifs <;> rfl

theorem stepDeprecatedFlags_cfg (c : PluginConfig) :
    (stepDeprecatedFlags c).cfg = c := by
  dsimp only [stepDeprecatedFlags]
  split_ifs <;> rfl

theorem stepRegistryDeprecated_cfg (c : PluginConfig) :
    (stepRegistryDeprecated c).cfg = c := by
  dsimp only [stepRegistryDeprecated]
  split_ifs <;> rfl

theorem stepStreamIdleTimeout_cfg (c : PluginConfig) :
    (stepStreamIdleTimeout c).cfg = c := by
  dsimp only [stepStreamIdleTimeout]
  split_ifs <;> first | rfl | (split <;> rfl)

theorem stepImagePullProgressTimeout_cfg (c : PluginConfig) :
    (stepImagePullProgressTimeout c).cfg = c := by
  dsimp only [stepImagePullProgressTimeout]
  split_ifs <;> first | rfl | (split <;> rfl)

theorem stepDrainExecSync_cfg (c : PluginConfig) :
    (stepDrainExecSync c).cfg = c := by
  dsimp only [stepDrainExecSync]
  split_ifs <;> first | rfl | (split <;> rfl)

theorem vseq_eq_of_none (r : VRes) (f : PluginConfig → VRes)
    (h : r.err = none) :
    vseq r f = ⟨(f r.cfg).cfg, r.warns ++ (f r.cfg).warns, (f r.cfg).err⟩ := by
  unfold vseq; simp [h]

theorem vseq_mk_of_none (cfg : PluginConfig) (w : List Warning)
    (e : Option VErr) (f : PluginConfig → VRes) (h : e = none) :
    vseq ⟨cfg, w, e⟩ f = ⟨(f cfg).cfg, w ++ (f cfg).warns, (f cfg).err⟩ := by
  unfold vseq; simp [h]

/-! ## Lemmas: shapes of the mutating passes -/

theorem stepUntrusted_cfg_shape (c : PluginConfig) :
    ∃ rts, (stepUntrusted c).cfg =
      { c with containerd := { c.containerd with runtimes := rts } } := by
  unfold stepUntrusted
  split_ifs with h1 h2
  · exact ⟨c.containerd.runtimes, rfl⟩
  · exact ⟨_, rfl⟩
  · exact ⟨c.containerd.runtimes, rfl⟩

theorem stepDefaultRuntime_cfg_shape (c : PluginConfig) :
    ∃ n rts, (stepDefaultRuntime c).cfg =
      { c with containerd := { c.containerd with
          defaultRuntimeName := n, runtimes := rts } } := by
  unfold stepDefaultRuntime
  split_ifs with h1
  · exact ⟨_, _, rfl⟩
  · exact ⟨c.containerd.defaultRuntimeName, c.containerd.runtimes, rfl⟩

theorem stepRuntimes_cfg_shape (c : PluginConfig) :
    ∃ rts, (stepRuntimes c).cfg =
      { c with containerd := { c.containerd with runtimes := rts } } := by
  unfold stepRuntimes
  exact ⟨_, rfl⟩

theorem stepAuths_cfg_shape (c : PluginConfig) :
    ∃ cfgs, (stepAuths c).cfg =
      { c with registry := { c.registry with configs := cfgs } } := by
  unfold stepAuths
  split_ifs with h1
  · cases h : authsLoop c.registry.auths c.registry.configs with
    | mk cfgs e =>
      cases e <;> refine ⟨cfgs, ?_⟩ <;> simp [h]
  · exact ⟨c.registry.configs, rfl⟩

/-! ## Lemmas: decomposition of the full pipeline -/

theorem pipe2_of_ok (c : PluginConfig)
    (h1 : (stepUntrusted c).err = none) :
    pipe2 c = ⟨midB c,
      (stepUntrusted c).warns ++ (stepDefaultRuntime (stepUntrusted c).cfg).warns,
      (stepDefaultRuntime (stepUntrusted c).cfg).err⟩ := by
  unfold pipe2 pipe1
  rw [vseq_eq_of_none _ _ h1]
  rfl

theorem pipe3_of_ok (c : PluginConfig)
    (h1 : (stepUntrusted c).err = none)
    (h2 : (stepDefaultRuntime (stepUntrusted c).cfg).err = none) :
    pipe3 c = ⟨midB c,
      ((stepUntrusted c).warns ++ (stepDefaultRuntime (stepUntrusted c).cfg).warns)
        ++ (stepDefaultRuntimeName (midB c)).warns,
      (stepDefaultRuntimeName (midB c)).err⟩ := by
  unfold pipe3
  rw [pipe2_of_ok c h1, vseq_mk_of_none _ _ _ _ h2]
  simp [stepDefaultRuntimeName_cfg]

theorem pipe4_of_ok (c : PluginConfig)
    (h1 : (stepUntrusted c).err = none)
    (h2 : (stepDefaultRuntime (stepUntrusted c).cfg).err = none)
    (h3 : (stepDefaultRuntimeName (midB c)).err = none) :
    pipe4 c = ⟨midB c,
      (((stepUntrusted c).warns ++ (stepDefaultRuntime (stepUntrusted c).cfg).warns)
        ++ (stepDefaultRuntimeName (midB c)).warns)
        ++ (stepDeprecatedFlags (midB c)).warns,
      (stepDeprecatedFlags (midB c)).err⟩ := by
  unfold pipe4
  rw [pipe3_of_ok c h1 h2, vseq_mk_of_none _ _ _ _ h3]
  simp [stepDeprecatedFlags_cfg]

theorem pipe5_of_ok (c : PluginConfig)
    (h1 : (stepUntrusted c).err = none)
    (h2 : (stepDefaultRuntime (stepUntrusted c).cfg).err = none)
    (h3 : (stepDefaultRuntimeName (midB c)).err = none)
    (h4 : (stepDeprecatedFlags (midB c)).err = none) :
    pipe5 c = ⟨midC c,
      ((((stepUntrusted c).warns ++ (stepDefaultRuntime (stepUntrusted c).cfg).warns)
        ++ (stepDefaultRuntimeName (midB c)).warns)
        ++ (stepDeprecatedFlags (midB c)).warns)
        ++ (stepRuntimes (midB c)).warns,
      (stepRuntimes (midB c)).err⟩ := by
  unfold pipe5
  rw [pipe4_of_ok c h1 h2 h3, vseq_mk_of_none _ _ _ _ h4]
  rfl

theorem pipe6_of_ok (c : PluginConfig)
    (h1 : (stepUntrusted c).err = none)
    (h2 : (stepDefaultRuntime (stepUntrusted c).cfg).err = none)
    (h3 : (stepDefaultRuntimeName (midB c)).err = none)
    (h4 : (stepDeprecatedFlags (midB c)).err = none)
    (h5 : (stepRuntimes (midB c)).err = none) :
    pipe6 c = ⟨midC c,
      (((((stepUntrusted c).warns ++ (stepDefaultRuntime (stepUntrusted c).cfg).warns)
        ++ (stepDefaultRuntimeName (midB c)).warns)
        ++ (stepDeprecatedFlags (midB c)).warns)
        ++ (stepRuntimes (midB c)).warns)
        ++ (stepRegistryDeprecated (midC c)).warns,
      (stepRegistryDeprecated (midC c)).err⟩ := by
  unfold pipe6
  rw [pipe5_of_ok c h1 h2 h3 h4, vseq_mk_of_none _ _ _ _ h5]
  simp [stepRegistryDeprecated_cfg]

theorem pipe7_of_ok (c : PluginConfig)
    (h1 : (stepUntrusted c).err = none)
    (h2 : (stepDefaultRuntime (stepUntrusted c).cfg).err = none)
    (h3 : (stepDefaultRuntimeName (midB c)).err = none)
    (h4 : (stepDeprecatedFlags (midB c)).err = none)
    (h5 : (stepRuntimes (midB c)).err = none)
    (h6 : (stepRegistryDeprecated (midC c)).err = none) :
    pipe7 c = ⟨midD c,
      ((((((stepUntrusted c).warns ++ (stepDefaultRuntime (stepUntrusted c).cfg).warns)
        ++ (stepDefaultRuntimeName (midB c)).warns)
        ++ (stepDeprecatedFlags (midB c)).warns)
        ++ (stepRuntimes (midB c)).warns)
        ++ (stepRegistryDeprecated (midC c)).warns)
        ++ (stepAuths (midC c)).warns,
      (stepAuths (midC c)).err⟩ := by
  unfold pipe7
  rw [pipe6_of_ok c h1 h2 h3 h4 h5, vseq_mk_of_none _ _ _ _ h6]
  rfl

theorem pipe8_of_ok (c : PluginConfig)
    (h1 : (stepUntrusted c).err = none)
    (h2 : (stepDefaultRuntime (stepUntrusted c).cfg).err = none)
    (h3 : (stepDefaultRuntimeName (midB c)).err = none)
    (h4 : (stepDeprecatedFlags (midB c)).err = none)
    (h5 : (stepRuntimes (midB c)).err = none)
    (h6 : (stepRegistryDeprecated (midC c)).err = none)
    (h7 : (stepAuths (midC c)).err = none) :
    pipe8 c = ⟨midD c,
      (((((((stepUntrusted c).warns ++ (stepDefaultRuntime (stepUntrusted c).cfg).warns)
        ++ (stepDefaultRuntimeName (midB c)).warns)
        ++ (stepDeprecatedFlags (midB c)).warns)
        ++ (stepRuntimes (midB c)).warns)
        ++ (stepRegistryDeprecated (midC c)).warns)
        ++ (stepAuths (midC c)).warns)
        ++ (stepStreamIdleTimeout (midD c)).warns,
      (stepStreamIdleTimeout (midD c)).err⟩ := by
  unfold pipe8
  rw [pipe7_of_ok c h1 h2 h3 h4 h5 h6, vseq_mk_of_none _ _ _ _ h7]
  simp [stepStreamIdleTimeout_cfg]

theorem pipe9_of_ok (c : PluginConfig)
    (h1 : (stepUntrusted c).err = none)
    (h2 : (stepDefaultRuntime (stepUntrusted c).cfg).err = none)
    (h3 : (stepDefaultRuntimeName (midB c)).err = none)
    (h4 : (stepDeprecatedFlags (midB c)).err = none)
    (h5 : (stepRuntimes (midB c)).err = none)
    (h6 : (stepRegistryDeprecated (midC c)).err = none)
    (h7 : (stepAuths (midC c)).err = none)
    (h8 : (stepStreamIdleTimeout (midD c)).err = none) :
    pipe9 c = ⟨midD c,
      ((((((((stepUntrusted c).warns ++ (stepDefaultRuntime (stepUntrusted c).cfg).warns)
        ++ (stepDefaultRuntimeName (midB c)).warns)
        ++ (stepDeprecatedFlags (midB c)).warns)
        ++ (stepRuntimes (midB c)).warns)
        ++ (stepRegistryDeprecated (midC c)).warns)
        ++ (stepAuths (midC c)).warns)
        ++ (stepStreamIdleTimeout (midD c)).warns)
        ++ (stepImagePullProgressTimeout (midD c)).warns,
      (stepImagePullProgressTimeout (midD c)).err⟩ := by
  unfold pipe9
  rw [pipe8_of_ok c h1 h2 h3 h4 h5 h6 h7, vseq_mk_of_none _ _ _ _ h8]
  simp [stepImagePullProgressTimeout_cfg]

theorem validate_eq_of_ok (c : PluginConfig)
    (h1 : (stepUntrusted c).err = none)
    (h2 : (stepDefaultRuntime (stepUntrusted c).cfg).err = none)
    (h3 : (stepDefaultRuntimeName (midB c)).err = none)
    (h4 : (stepDeprecatedFlags (midB c)).err = none)
    (h5 : (stepRuntimes (midB c)).err = none)
    (h6 : (stepRegistryDeprecated (midC c)).err = none)
    (h7 : (stepAuths (midC c)).err = none)
    (h8 : (stepStreamIdleTimeout (midD c)).err = none)
    (h9 : (stepImagePullProgressTimeout (midD c)).err = none) :
    ValidatePluginConfig c = ⟨midD c,
      (((((((((stepUntrusted c).warns ++ (stepDefaultRuntime (stepUntrusted c).cfg).warns)
        ++ (stepDefaultRuntimeName (midB c)).warns)
        ++ (stepDeprecatedFlags (midB c)).warns)
        ++ (stepRuntimes (midB c)).warns)
        ++ (stepRegistryDeprecated (midC c)).warns)
        ++ (stepAuths (midC c)).warns)
        ++ (stepStreamIdleTimeout (midD c)).warns)
        ++ (stepImagePullProgressTimeout (midD c)).warns)
        ++ (stepDrainExecSync (midD c)).warns,
      (stepDrainExecSync (midD c)).err⟩ := by
  unfold ValidatePluginConfig
  rw [pipe9_of_ok c h1 h2 h3 h4 h5 h6 h7 h8, vseq_mk_of_none _ _ _ _ h9]
  simp [stepDrainExecSync_cfg]

theorem validate_of_pipe1_err (c : PluginConfig)
    (h : (pipe1 c).err ≠ none) : ValidatePluginConfig c = pipe1 c := by
  have e2 : pipe2 c = pipe1 c := vseq_of_some _ _ h
  have e3 : pipe3 c = pipe1 c := by unfold pipe3; rw [e2]; exact vseq_of_some _ _ h
  have e4 : pipe4 c = pipe1 c := by unfold pipe4; rw [e3]; exact vseq_of_some _ _ h
  have e5 : pipe5 c = pipe1 c := by unfold pipe5; rw [e4]; exact vseq_of_some _ _ h
  have e6 : pipe6 c = pipe1 c := by unfold pipe6; rw [e5]; exact vseq_of_some _ _ h
  have e7 : pipe7 c = pipe1 c := by unfold pipe7; rw [e6]; exact vseq_of_some _ _ h
  have e8 : pipe8 c = pipe1 c := by unfold pipe8; rw [e7]; exact vseq_of_some _ _ h
  have e9 : pipe9 c = pipe1 c := by unfold pipe9; rw [e8]; exact vseq_of_some _ _ h
  unfold ValidatePluginConfig
  rw [e9]; exact vseq_of_some _ _ h

theorem validate_of_pipe3_err (c : PluginConfig)
    (h : (pipe3 c).err ≠ none) : ValidatePluginConfig c = pipe3 c := by
  have e4 : pipe4 c = pipe3 c := vseq_of_some _ _ h
  have e5 : pipe5 c = pipe3 c := by unfold pipe5; rw [e4]; exact vseq_of_some _ _ h
  have e6 : pipe6 c = pipe3 c := by unfold pipe6; rw [e5]; exact vseq_of_some _ _ h
  have e7 : pipe7 c = pipe3 c := by unfold pipe7; rw [e6]; exact vseq_of_some _ _ h
  have e8 : pipe8 c = pipe3 c := by unfold pipe8; rw [e7]; exact vseq_of_some _ _ h
  have e9 : pipe9 c = pipe3 c := by unfold pipe9; rw [e8]; exact vseq_of_some _ _ h
  unfold ValidatePluginConfig
  rw [e9]; exact vseq_of_some _ _ h

theorem validate_ok_decomp (c : PluginConfig)
    (h : (ValidatePluginConfig c).err = none) :
    (stepUntrusted c).err = none ∧
    (stepDefaultRuntime (stepUntrusted c).cfg).err = none ∧
    (stepDefaultRuntimeName (midB c)).err = none ∧
    (stepDeprecatedFlags (midB c)).err = none ∧
    (stepRuntimes (midB c)).err = none ∧
    (stepRegistryDeprecated (midC c)).err = none ∧
    (stepAuths (midC c)).err = none ∧
    (stepStreamIdleTimeout (midD c)).err = none ∧
    (stepImagePullProgressTimeout (midD c)).err = none ∧
    (stepDrainExecSync (midD c)).err = none := by
  obtain ⟨h9p, h10⟩ := (vseq_err_none_iff (pipe9 c) stepDrainExecSync).mp h
  obtain ⟨h8p, h9⟩ :=
    (vseq_err_none_iff (pipe8 c) stepImagePullProgressTimeout).mp h9p
  obtain ⟨h7p, h8⟩ := (vseq_err_none_iff (pipe7 c) stepStreamIdleTimeout).mp h8p
  obtain ⟨h6p, h7⟩ := (vseq_err_none_iff (pipe6 c) stepAuths).mp h7p
  obtain ⟨h5p, h6⟩ := (vseq_err_none_iff (pipe5 c) stepRegistryDeprecated).mp h6p
  obtain ⟨h4p, h5⟩ := (vseq_err_none_iff (pipe4 c) stepRuntimes).mp h5p
  obtain ⟨h3p, h4⟩ := (vseq_err_none_iff (pipe3 c) stepDeprecatedFlags).mp h4p
  obtain ⟨h2p, h3⟩ := (vseq_err_none_iff (pipe2 c) stepDefaultRuntimeName).mp h3p
  obtain ⟨h1, h2⟩ := (vseq_err_none_iff (pipe1 c) stepDefaultRuntime).mp h2p
  have c2 : (pipe2 c).cfg = midB c := by rw [pipe2_of_ok c h1]
  rw [c2] at h3
  have c3 : (pipe3 c).cfg = midB c := by rw [pipe3_of_ok c h1 h2]
  rw [c3] at h4
  have c4 : (pipe4 c).cfg = midB c := by rw [pipe4_of_ok c h1 h2 h3]
  rw [c4] at h5
  have c5 : (pipe5 c).cfg = midC c := by rw [pipe5_of_ok c h1 h2 h3 h4]
  rw [c5] at h6
  have c6 : (pipe6 c).cfg = midC c := by rw [pipe6_of_ok c h1 h2 h3 h4 h5]
  rw [c6] at h7
  have c7 : (pipe7 c).cfg = midD c := by rw [pipe7_of_ok c h1 h2 h3 h4 h5 h6]
  rw [c7] at h8
  have c8 : (pipe8 c).cfg = midD c := by rw [pipe8_of_ok c h1 h2 h3 h4 h5 h6 h7]
  rw [c8] at h9
  have c9 : (pipe9 c).cfg = midD c := by rw [pipe9_of_ok c h1 h2 h3 h4 h5 h6 h7 h8]
  rw [c9] at h10
  exact ⟨h1, h2, h3, h4, h5, h6, h7, h8, h9, h10⟩

theorem validate_cfg_of_ok (c : PluginConfig)
    (h : (ValidatePluginConfig c).err = none) :
    (ValidatePluginConfig c).cfg = midD c := by
  obtain ⟨h1, h2, h3, h4, h5, h6, h7, h8, h9, h10⟩ := validate_ok_decomp c h
  rw [validate_eq_of_ok c h1 h2 h3 h4 h5 h6 h7 h8 h9]

theorem validate_err_of_ok (c : PluginConfig)
    (h1 : (stepUntrusted c).err = none)
    (h2 : (stepDefaultRuntime (stepUntrusted c).cfg).err = none)
    (h3 : (stepDefaultRuntimeName (midB c)).err = none)
    (h4 : (stepDeprecatedFlags (midB c)).err = none)
    (h5 : (stepRuntimes (midB c)).err = none)
    (h6 : (stepRegistryDeprecated (midC c)).err = none)
    (h7 : (stepAuths (midC c)).err = none)
    (h8 : (stepStreamIdleTimeout (midD c)).err = none)
    (h9 : (stepImagePullProgressTimeout (midD c)).err = none) :
    (ValidatePluginConfig c).err = (stepDrainExecSync (midD c)).err := by
  rw [validate_eq_of_ok c h1 h2 h3 h4 h5 h6 h7 h8 h9]

/-! ## Lemmas: characterization of individual passes -/

theorem stepUntrusted_of_empty (c : PluginConfig)
    (h : c.containerd.untrustedWorkloadRuntime.type = "") :
    stepUntrusted c = ⟨c, [], none⟩ := by
  unfold stepUntrusted; simp [h]

theorem stepUntrusted_of_conflict (c : PluginConfig)
    (h : c.containerd.untrustedWorkloadRuntime.type ≠ "")
    (h2 : (lookupA c.containerd.runtimes RuntimeUntrusted).isSome) :
    stepUntrusted c = ⟨c, [.untrustedWorkloadRuntimeDeprecated],
      some .untrustedConflict⟩ := by
  unfold stepUntrusted; simp [h, h2]

theorem stepUntrusted_of_migrate (c : PluginConfig)
    (h : c.containerd.untrustedWorkloadRuntime.type ≠ "")
    (h2 : lookupA c.containerd.runtimes RuntimeUntrusted = none) :
    stepUntrusted c = ⟨{ c with containerd := { c.containerd with
        runtimes := insertA c.containerd.runtimes RuntimeUntrusted
          c.containerd.untrustedWorkloadRuntime } },
      [.untrustedWorkloadRuntimeDeprecated], none⟩ := by
  unfold stepUntrusted; simp [h, h2]

theorem stepDefaultRuntime_of_empty (c : PluginConfig)
    (h : c.containerd.defaultRuntime.type = "") :
    stepDefaultRuntime c = ⟨c, [], none⟩ := by
  unfold stepDefaultRuntime; simp [h]

theorem stepDefaultRuntime_of_migrate (c : PluginConfig)
    (h : c.containerd.defaultRuntime.type ≠ "") :
    stepDefaultRuntime c = ⟨{ c with containerd := { c.containerd with
        defaultRuntimeName := RuntimeDefault,
        runtimes := insertA c.containerd.runtimes RuntimeDefault
          c.containerd.defaultRuntime } },
      [.defaultRuntimeDeprecated], none⟩ := by
  unfold stepDefaultRuntime; simp [h]

theorem stepDefaultRuntime_err (c : PluginConfig) :
    (stepDefaultRuntime c).err = none := by
  unfold stepDefaultRuntime; split_ifs <;> rfl

theorem stepDefaultRuntimeName_of_empty (c : PluginConfig)
    (h : c.containerd.defaultRuntimeName = "") :
    stepDefaultRuntimeName c = ⟨c, [], some .defaultRuntimeNameEmpty⟩ := by
  unfold stepDefaultRuntimeName; simp [h]

theorem stepDefaultRuntimeName_of_missing (c : PluginConfig)
    (h : c.containerd.defaultRuntimeName ≠ "")
    (h2 : lookupA c.containerd.runtimes c.containerd.defaultRuntimeName = none) :
    stepDefaultRuntimeName c =
      ⟨c, [], some (.noRuntimeForDefault c.containerd.defaultRuntimeName)⟩ := by
  unfold stepDefaultRuntimeName; simp [h, h2]

theorem stepDefaultRuntimeName_err_none_iff (c : PluginConfig) :
    (stepDefaultRuntimeName c).err = none ↔
      c.containerd.defaultRuntimeName ≠ "" ∧
      (lookupA c.containerd.runtimes c.containerd.defaultRuntimeName).isSome := by
  unfold stepDefaultRuntimeName
  by_cases h1 : c.containerd.defaultRuntimeName = "" <;>
    cases hlk : lookupA c.containerd.runtimes c.containerd.defaultRuntimeName <;>
      simp [h1, hlk]

theorem stepDeprecatedFlags_err_none_iff (c : PluginConfig) :
    (stepDeprecatedFlags c).err = none ↔
      (c.systemdCgroup →
        runtimeTypeAt c c.containerd.defaultRuntimeName = RuntimeLinuxV1) ∧
      (c.containerd.noPivot →
        runtimeTypeAt c c.containerd.defaultRuntimeName = RuntimeLinuxV1) := by
  unfold stepDeprecatedFlags
  by_cases hs : c.systemdCgroup = true <;>
    by_cases hn : c.containerd.noPivot = true <;>
      by_cases ht : runtimeTypeAt c c.containerd.defaultRuntimeName =
          RuntimeLinuxV1 <;>
        simp [hs, hn, ht]

theorem stepDeprecatedFlags_of_systemd_bad (c : PluginConfig)
    (h1 : c.systemdCgroup = true)
    (h2 : runtimeTypeAt c c.containerd.defaultRuntimeName ≠ RuntimeLinuxV1) :
    stepDeprecatedFlags c = ⟨c, [], some .systemdCgroupOnlyLinuxV1⟩ := by
  unfold stepDeprecatedFlags; simp [h1, h2]

theorem stepDeprecatedFlags_of_noPivot_bad (c : PluginConfig)
    (h1 : c.systemdCgroup = false)
    (h2 : c.containerd.noPivot = true)
    (h3 : runtimeTypeAt c c.containerd.defaultRuntimeName ≠ RuntimeLinuxV1) :
    stepDeprecatedFlags c = ⟨c, [], some .noPivotOnlyLinuxV1⟩ := by
  unfold stepDeprecatedFlags; simp [h1, h2, h3]

theorem stepDeprecatedFlags_of_valid (c : PluginConfig)
    (h : runtimeTypeAt c c.containerd.defaultRuntimeName = RuntimeLinuxV1) :
    stepDeprecatedFlags c =
      ⟨c, if c.systemdCgroup then [.systemdCgroupDeprecated] else [], none⟩ := by
  unfold stepDeprecatedFlags; simp [h]

theorem stepStreamIdleTimeout_err_none_iff (c : PluginConfig) :
    (stepStreamIdleTimeout c).err = none ↔
      (c.streamIdleTimeout = "" ∨
        ∃ n, parseDuration c.streamIdleTimeout = .ok n) := by
  unfold stepStreamIdleTimeout
  split_ifs with h1
  · cases hp : parseDuration c.streamIdleTimeout <;> simp [h1, hp]
  · simp at h1
    simp [h1]

theorem stepImagePullProgressTimeout_err_none_iff (c : PluginConfig) :
    (stepImagePullProgressTimeout c).err = none ↔
      (c.imagePullProgressTimeout = "" ∨
        ∃ n, parseDuration c.imagePullProgressTimeout = .ok n) := by
  unfold stepImagePullProgressTimeout
  split_ifs with h1
  · cases hp : parseDuration c.imagePullProgressTimeout <;> simp [h1, hp]
  · simp at h1
    simp [h1]

theorem stepDrainExecSync_err_none_iff (c : PluginConfig) :
    (stepDrainExecSync c).err = none ↔
      (c.drainExecSyncIOTimeout = "" ∨
        ∃ n, parseDuration c.drainExecSyncIOTimeout = .ok n) := by
  unfold stepDrainExecSync
  split_ifs with h1
  · cases hp : parseDuration c.drainExecSyncIOTimeout <;> simp [h1, hp]
  · simp at h1
    simp [h1]

theorem stepRegistryDeprecated_err_none_iff (c : PluginConfig) :
    (stepRegistryDeprecated c).err = none ↔
      ((c.registry.mirrors.length > 0 → c.registry.configPath = "") ∧
       (hasDeprecatedTLS c.registry.configs → c.registry.configPath = "")) := by
  unfold stepRegistryDeprecated
  by_cases hm : c.registry.mirrors.length > 0 <;>
    by_cases ht : hasDeprecatedTLS c.registry.configs = true <;>
      by_cases hp : c.registry.configPath = "" <;>
        simp [hm, ht, hp]

theorem stepRegistryDeprecated_of_no_config_path (c : PluginConfig)
    (h : c.registry.configPath = "") :
    stepRegistryDeprecated c = ⟨c,
      (if c.registry.mirrors.length > 0 then [.mirrorsDeprecated] else []) ++
        (if hasDeprecatedTLS c.registry.configs then [.configsTLSDeprecated] else []),
      none⟩ := by
  unfold stepRegistryDeprecated
  simp [h]

/-! ## Lemmas: the per-handler loop -/

theorem checkRuntime_err_none_iff (r : Runtime) :
    (checkRuntime r).2.2 = none ↔
      (r.engine ≠ "" → r.type = RuntimeLinuxV1) ∧
      (r.root ≠ "" → r.type = RuntimeLinuxV1) ∧
      (r.privilegedWithoutHostDevicesAllDevicesAllowed →
        r.privilegedWithoutHostDevices) := by
  unfold checkRuntime
  by_cases he : r.engine = "" <;>
    by_cases hr : r.root = "" <;>
      by_cases ht : r.type = RuntimeLinuxV1 <;>
        by_cases hp : r.privilegedWithoutHostDevices = true <;>
          by_cases ha : r.privilegedWithoutHostDevicesAllDevicesAllowed = true <;>
            by_cases hm : r.sandboxMode = "" <;>
              simp [he, hr, ht, hp, ha, hm]

theorem checkRuntime_fst_of_ok (r : Runtime)
    (h : (checkRuntime r).2.2 = none) :
    (checkRuntime r).1 = applySandboxDefault r := by
  rw [checkRuntime_err_none_iff] at h
  obtain ⟨he, hr, hp⟩ := h
  have hcond : ¬(r.privilegedWithoutHostDevices = false ∧
      r.privilegedWithoutHostDevicesAllDevicesAllowed = true) := by
    rintro ⟨hp1, hp2⟩
    have := hp (by simp [hp2])
    simp [hp1] at this
  unfold checkRuntime applySandboxDefault
  by_cases ht : r.type = RuntimeLinuxV1
  · by_cases hm : r.sandboxMode = "" <;> simp [ht, hm, hcond]
  · have h1 : r.engine = "" := by by_contra hx; exact ht (he hx)
    have h2 : r.root = "" := by by_contra hx; exact ht (hr hx)
    by_cases hm : r.sandboxMode = "" <;> simp [h1, h2, ht, hm, hcond]

theorem runtimesLoop_cons_err (k : String) (r r' : Runtime)
    (w : List Warning) (e : VErr) (rest : List (String × Runtime))
    (hc : checkRuntime r = (r', w, some e)) :
    runtimesLoop ((k, r) :: rest) = ((k, r') :: rest, w, some e) := by
  conv_lhs => rw [runtimesLoop]
  rw [hc]

theorem runtimesLoop_cons_ok (k : String) (r r' : Runtime)
    (w : List Warning) (rest : List (String × Runtime))
    (hc : checkRuntime r = (r', w, none)) :
    runtimesLoop ((k, r) :: rest) =
      ((k, r') :: (runtimesLoop rest).1,
        w ++ (runtimesLoop rest).2.1, (runtimesLoop rest).2.2) := by
  conv_lhs => rw [runtimesLoop]
  rw [hc]

theorem runtimesLoop_err_none_iff (l : List (String × Runtime)) :
    (runtimesLoop l).2.2 = none ↔ ∀ p ∈ l, (checkRuntime p.2).2.2 = none := by
  induction l with
  | nil => simp [runtimesLoop]
  | cons p rest ih =>
    obtain ⟨k, r⟩ := p
    cases hc : checkRuntime r with
    | mk r' we =>
      obtain ⟨w, e⟩ := we
      cases e with
      | none =>
        rw [runtimesLoop_cons_ok k r r' w rest hc]
        simp only [List.mem_cons]
        constructor
        · intro hh q hq
          rcases hq with hq | hq
          · subst hq; simp [hc]
          · exact (ih.mp hh) q hq
        · intro hh
          exact ih.mpr fun q hq => hh q (Or.inr hq)
      | some err =>
        rw [runtimesLoop_cons_err k r r' w err rest hc]
        constructor
        · intro hh; cases hh
        · intro hh
          have := hh (k, r) (List.mem_cons_self _ _)
          rw [hc] at this
          cases this

theorem runtimesLoop_fst_of_ok (l : List (String × Runtime))
    (h : ∀ p ∈ l, (checkRuntime p.2).2.2 = none) :
    (runtimesLoop l).1 = mapValsA applySandboxDefault l := by
  induction l with
  | nil => simp [runtimesLoop, mapValsA]
  | cons p rest ih =>
    obtain ⟨k, r⟩ := p
    have hr : (checkRuntime r).2.2 = none := h (k, r) (List.mem_cons_self _ _)
    have hfst := checkRuntime_fst_of_ok r hr
    cases hc : checkRuntime r with
    | mk r' we =>
      obtain ⟨w, e⟩ := we
      cases e with
      | none =>
        rw [runtimesLoop_cons_ok k r r' w rest hc]
        rw [hc] at hfst
        simp only [mapValsA, List.cons.injEq]
        exact ⟨by simp [← hfst], ih fun q hq => h q (List.mem_cons_of_mem _ hq)⟩
      | some err => rw [hc] at hr; cases hr

theorem runtimesLoop_warns_of_ok (l : List (String × Runtime))
    (h : ∀ p ∈ l, (checkRuntime p.2).2.2 = none) :
    (runtimesLoop l).2.1 = l.flatMap (fun p => (checkRuntime p.2).2.1) := by
  induction l with
  | nil => simp [runtimesLoop]
  | cons p rest ih =>
    obtain ⟨k, r⟩ := p
    have hr : (checkRuntime r).2.2 = none := h (k, r) (List.mem_cons_self _ _)
    cases hc : checkRuntime r with
    | mk r' we =>
      obtain ⟨w, e⟩ := we
      cases e with
      | none =>
        rw [runtimesLoop_cons_ok k r r' w rest hc]
        simp only [List.flatMap_cons, hc]
        rw [ih fun q hq => h q (List.mem_cons_of_mem _ hq)]
      | some err => rw [hc] at hr; cases hr

theorem stepRuntimes_err_none_iff (c : PluginConfig) :
    (stepRuntimes c).err = none ↔
      ∀ p ∈ c.containerd.runtimes, (checkRuntime p.2).2.2 = none := by
  unfold stepRuntimes
  rw [← runtimesLoop_err_none_iff]

theorem stepRuntimes_cfg_of_ok (c : PluginConfig)
    (h : ∀ p ∈ c.containerd.runtimes, (checkRuntime p.2).2.2 = none) :
    (stepRuntimes c).cfg = { c with containerd := { c.containerd with
      runtimes := mapValsA applySandboxDefault c.containerd.runtimes } } := by
  unfold stepRuntimes
  simp only [runtimesLoop_fst_of_ok _ h]

/-! ## Lemmas: the `auths` migration loop -/

theorem getD_tls (o : Option RegistryConfig) : (o.getD {}).tls = tlsOf o := by
  cases o <;> rfl

theorem authsLoop_cons_err (endpoint : String) (a : AuthConfig)
    (rest : List (String × AuthConfig)) (configs : List (String × RegistryConfig))
    (msg : String) (hp : urlParse endpoint = .error msg) :
    authsLoop ((endpoint, a) :: rest) configs =
      (configs, some (.parseRegistryURL endpoint msg)) := by
  conv_lhs => rw [authsLoop]
  rw [hp]

theorem authsLoop_cons_ok (endpoint : String) (a : AuthConfig)
    (rest : List (String × AuthConfig)) (configs : List (String × RegistryConfig))
    (u : GoURL) (hp : urlParse endpoint = .ok u) :
    authsLoop ((endpoint, a) :: rest) configs =
      authsLoop rest (insertA configs (migKey endpoint)
        ⟨some a, tlsOf (lookupA configs (migKey endpoint))⟩) := by
  have hk : (if u.scheme ≠ "" then u.host else endpoint) = migKey endpoint := by
    unfold migKey; rw [hp]
  conv_lhs => rw [authsLoop]
  rw [hp]
  dsimp only
  rw [hk, getD_tls]

theorem authsLoop_err_none_iff (auths : List (String × AuthConfig))
    (configs : List (String × RegistryConfig)) :
    (authsLoop auths configs).2 = none ↔
      ∀ p ∈ auths, ∃ u, urlParse p.1 = Except.ok u := by
  induction auths generalizing configs with
  | nil => simp [authsLoop]
  | cons p rest ih =>
    obtain ⟨endpoint, a⟩ := p
    cases hp : urlParse endpoint with
    | error msg =>
      rw [authsLoop_cons_err endpoint a rest configs msg hp]
      simp only [List.mem_cons]
      constructor
      · intro hh; cases hh
      · intro hh
        obtain ⟨u, hu⟩ := hh (endpoint, a) (Or.inl rfl)
        rw [hp] at hu; cases hu
    | ok u =>
      rw [authsLoop_cons_ok endpoint a rest configs u hp]
      rw [ih]
      simp only [List.mem_cons]
      constructor
      · intro hh q hq
        rcases hq with hq | hq
        · subst hq; exact ⟨u, hp⟩
        · exact hh q hq
      · intro hh q hq
        exact hh q (Or.inr hq)

theorem tlsOf_lookup_insert (m : List (String × RegistryConfig))
    (key k : String) (x : Option AuthConfig) :
    tlsOf (lookupA (insertA m key ⟨x, tlsOf (lookupA m key)⟩) k) =
      tlsOf (lookupA m k) := by
  by_cases hk : k = key
  · subst hk
    rw [lookupA_insertA_self]
    rfl
  · rw [lookupA_insertA_of_ne _ _ _ _ hk]

theorem authsLoop_lookup_of_ok (auths : List (String × AuthConfig))
    (h : ∀ p ∈ auths, ∃ u, urlParse p.1 = Except.ok u)
    (m : List (String × RegistryConfig)) (k : String) :
    lookupA (authsLoop auths m).1 k =
      match lastAuth auths k with
      | some a => some ⟨some a, tlsOf (lookupA m k)⟩
      | none => lookupA m k := by
  induction auths generalizing m with
  | nil => simp [authsLoop, lastAuth]
  | cons p rest ih =>
    obtain ⟨endpoint, a⟩ := p
    obtain ⟨u, hu⟩ := h (endpoint, a) (List.mem_cons_self _ _)
    rw [authsLoop_cons_ok endpoint a rest m u hu]
    rw [ih fun q hq => h q (List.mem_cons_of_mem _ hq)]
    show _ = (match lastAuth ((endpoint, a) :: rest) k with
      | some a => some ⟨some a, tlsOf (lookupA m k)⟩
      | none => lookupA m k)
    conv_rhs => rw [lastAuth]
    cases hl : lastAuth rest k with
    | some a' =>
      simp only [hl]
      rw [tlsOf_lookup_insert]
    | none =>
      simp only [hl]
      by_cases hk : migKey endpoint = k
      · subst hk
        rw [lookupA_insertA_self]
        simp
      · rw [if_neg hk]
        rw [lookupA_insertA_of_ne _ _ _ _ fun hx => hk hx.symm]

theorem hasTLS_insertA (m : List (String × RegistryConfig)) (key : String)
    (x : Option AuthConfig) :
    hasDeprecatedTLS (insertA m key ⟨x, tlsOf (lookupA m key)⟩) =
      hasDeprecatedTLS m := by
  induction m with
  | nil => simp [insertA, lookupA, hasDeprecatedTLS, tlsOf]
  | cons p rest ih =>
    obtain ⟨k₀, v₀⟩ := p
    by_cases h₀ : k₀ = key
    · subst h₀
      simp [insertA, lookupA, hasDeprecatedTLS, tlsOf]
    · simp only [insertA, if_neg h₀, hasDeprecatedTLS, List.any_cons]
      rw [show lookupA ((k₀, v₀) :: rest) key = lookupA rest key by
        simp [lookupA, h₀]]
      rw [show (insertA rest key ⟨x, tlsOf (lookupA rest key)⟩).any
          (fun kv => kv.2.tls.isSome) = hasDeprecatedTLS
            (insertA rest key ⟨x, tlsOf (lookupA rest key)⟩) from rfl]
      rw [ih]
      rfl

theorem hasTLS_authsLoop (auths : List (String × AuthConfig))
    (m : List (String × RegistryConfig)) :
    hasDeprecatedTLS (authsLoop auths m).1 = hasDeprecatedTLS m := by
  induction auths generalizing m with
  | nil => simp [authsLoop]
  | cons p rest ih =>
    obtain ⟨endpoint, a⟩ := p
    cases hp : urlParse endpoint with
    | error msg => rw [authsLoop_cons_err endpoint a rest m msg hp]
    | ok u =>
      rw [authsLoop_cons_ok endpoint a rest m u hp]
      rw [ih]
      exact hasTLS_insertA m (migKey endpoint) (some a)

/-! ## Lemmas: the `auths` pass -/

theorem stepAuths_of_empty (c : PluginConfig) (h : c.registry.auths = []) :
    stepAuths c = ⟨c, [], none⟩ := by
  unfold stepAuths
  simp [h]

theorem stepAuths_err_none_iff (c : PluginConfig) :
    (stepAuths c).err = none ↔
      ∀ p ∈ c.registry.auths, ∃ u, urlParse p.1 = Except.ok u := by
  unfold stepAuths
  by_cases h : c.registry.auths.length ≠ 0
  · simp only [if_pos h]
    cases hl : authsLoop c.registry.auths c.registry.configs with
    | mk cfgs e =>
      cases e with
      | none =>
        simp only []
        have := (authsLoop_err_none_iff c.registry.auths c.registry.configs)
        rw [hl] at this
        simpa using this
      | some err =>
        simp only []
        have := (authsLoop_err_none_iff c.registry.auths c.registry.configs)
        rw [hl] at this
        simpa using this
  · simp only [if_neg h]
    have : c.registry.auths = [] := by
      simpa using List.length_eq_zero.mp (by omega)
    simp [this]

theorem stepAuths_cfg_of_nonempty (c : PluginConfig)
    (h : c.registry.auths ≠ []) :
    (stepAuths c).cfg = { c with registry := { c.registry with
      configs := (authsLoop c.registry.auths c.registry.configs).1 } } := by
  unfold stepAuths
  have hlen : c.registry.auths.length ≠ 0 := by
    simpa using fun hx => h (List.length_eq_zero.mp hx)
  simp only [if_pos hlen]
  cases hl : authsLoop c.registry.auths c.registry.configs with
  | mk cfgs e =>
    cases e <;> simp [hl]

/-! ## Lemmas: the intermediate configurations -/

theorem midD_containerd (c : PluginConfig) :
    (midD c).containerd = (midC c).containerd := by
  obtain ⟨cfgs, hD⟩ := stepAuths_cfg_shape (midC c)
  show (stepAuths (midC c)).cfg.containerd = _
  rw [hD]

theorem midC_of_ok (c : PluginConfig)
    (h5' : ∀ p ∈ (midB c).containerd.runtimes, (checkRuntime p.2).2.2 = none) :
    midC c = { midB c with containerd := { (midB c).containerd with
      runtimes := mapValsA applySandboxDefault (midB c).containerd.runtimes } } :=
  stepRuntimes_cfg_of_ok _ h5'

theorem midB_shape (c : PluginConfig) :
    ∃ n rts, midB c = { c with containerd := { c.containerd with
      defaultRuntimeName := n, runtimes := rts } } := by
  obtain ⟨r1, e1⟩ := stepUntrusted_cfg_shape c
  obtain ⟨n2, r2, e2⟩ := stepDefaultRuntime_cfg_shape ((stepUntrusted c).cfg)
  refine ⟨n2, r2, ?_⟩
  unfold midB
  rw [e2, e1]

theorem midC_shape (c : PluginConfig) :
    ∃ n rts, midC c = { c with containerd := { c.containerd with
      defaultRuntimeName := n, runtimes := rts } } := by
  obtain ⟨n1, r1, e1⟩ := midB_shape c
  obtain ⟨r2, e2⟩ := stepRuntimes_cfg_shape (midB c)
  refine ⟨n1, r2, ?_⟩
  show (stepRuntimes (midB c)).cfg = _
  rw [e2, e1]

theorem midD_shape (c : PluginConfig) :
    ∃ n rts cfgs, midD c = { c with
      containerd := { c.containerd with
        defaultRuntimeName := n, runtimes := rts },
      registry := { c.registry with configs := cfgs } } := by
  obtain ⟨n1, r1, e1⟩ := midC_shape c
  obtain ⟨cfgs, e2⟩ := stepAuths_cfg_shape (midC c)
  refine ⟨n1, r1, cfgs, ?_⟩
  show (stepAuths (midC c)).cfg = _
  rw [e2, e1]

/-! ## Claims -/

/-- C1.  For every configuration on which validation succeeds, the final
default-handler name is non-empty and the final registry has a handler under
it.  On a configuration whose legacy runtime fields are unset (as in the
spec's scenario), an empty default-handler name fails with the
missing-default error even when the registry is non-empty, and a non-empty
name with no matching handler fails with the missing-reference error naming
it. -/
theorem claim_C1 :
    (∀ c : PluginConfig, (ValidatePluginConfig c).err = none →
      (ValidatePluginConfig c).cfg.containerd.defaultRuntimeName ≠ "" ∧
      (lookupA (ValidatePluginConfig c).cfg.containerd.runtimes
        (ValidatePluginConfig c).cfg.containerd.defaultRuntimeName).isSome) ∧
    (∀ c : PluginConfig,
      c.containerd.untrustedWorkloadRuntime.type = "" →
      c.containerd.defaultRuntime.type = "" →
      c.containerd.defaultRuntimeName = "" →
      (ValidatePluginConfig c).err = some .defaultRuntimeNameEmpty) ∧
    (∀ c : PluginConfig,
      c.containerd.untrustedWorkloadRuntime.type = "" →
      c.containerd.defaultRuntime.type = "" →
      c.containerd.defaultRuntimeName ≠ "" →
      lookupA c.containerd.runtimes c.containerd.defaultRuntimeName = none →
      (ValidatePluginConfig c).err =
        some (.noRuntimeForDefault c.containerd.defaultRuntimeName)) := by
  refine ⟨?_, ?_, ?_⟩
  · intro c h
    obtain ⟨h1, h2, h3, h4, h5, h6, h7, h8, h9, h10⟩ := validate_ok_decomp c h
    rw [validate_cfg_of_ok c h]
    obtain ⟨hne, hsome⟩ := (stepDefaultRuntimeName_err_none_iff _).mp h3
    have h5' := (stepRuntimes_err_none_iff _).mp h5
    have hC := midC_of_ok c h5'
    rw [midD_containerd, hC]
    refine ⟨hne, ?_⟩
    simp only [lookupA_mapValsA]
    cases hx : lookupA (midB c).containerd.runtimes
        (midB c).containerd.defaultRuntimeName with
    | none => rw [hx] at hsome; cases hsome
    | some r => simp
  · intro c hU hD hN
    have e1 : stepUntrusted c = ⟨c, [], none⟩ := stepUntrusted_of_empty c hU
    have hm : midB c = c := by
      unfold midB
      rw [e1]
      show (stepDefaultRuntime c).cfg = c
      rw [stepDefaultRuntime_of_empty c hD]
    have h1 : (stepUntrusted c).err = none := by rw [e1]
    have h2 : (stepDefaultRuntime (stepUntrusted c).cfg).err = none := by
      rw [e1]; exact stepDefaultRuntime_err c
    have hp3 : pipe3 c = ⟨midB c,
        ((stepUntrusted c).warns ++ (stepDefaultRuntime (stepUntrusted c).cfg).warns)
          ++ (stepDefaultRuntimeName (midB c)).warns,
        (stepDefaultRuntimeName (midB c)).err⟩ := pipe3_of_ok c h1 h2
    have herr : (stepDefaultRuntimeName (midB c)).err =
        some .defaultRuntimeNameEmpty := by
      rw [hm, stepDefaultRuntimeName_of_empty c hN]
    have hv : ValidatePluginConfig c = pipe3 c := by
      apply validate_of_pipe3_err
      rw [hp3]
      simp [herr]
    rw [hv, hp3]
    exact herr
  · intro c hU hD hN hMiss
    have e1 : stepUntrusted c = ⟨c, [], none⟩ := stepUntrusted_of_empty c hU
    have hm : midB c = c := by
      unfold midB
      rw [e1]
      show (stepDefaultRuntime c).cfg = c
      rw [stepDefaultRuntime_of_empty c hD]
    have h1 : (stepUntrusted c).err = none := by rw [e1]
    have h2 : (stepDefaultRuntime (stepUntrusted c).cfg).err = none := by
      rw [e1]; exact stepDefaultRuntime_err c
    have hp3 := pipe3_of_ok c h1 h2
    have herr : (stepDefaultRuntimeName (midB c)).err =
        some (.noRuntimeForDefault c.containerd.defaultRuntimeName) := by
      rw [hm, stepDefaultRuntimeName_of_missing c hN hMiss]
    have hv : ValidatePluginConfig c = pipe3 c := by
      apply validate_of_pipe3_err
      rw [hp3]
      simp [herr]
    rw [hv, hp3]
    exact herr

/-- C1 witness: the three parts at the concrete scenarios (a passing `runc`
configuration; the spec's empty-name-with-`runc` scenario; a dangling
default-handler name). -/
theorem claim_C1_witness :
    ((ValidatePluginConfig cfgRunc).cfg.containerd.defaultRuntimeName ≠ "" ∧
      (lookupA (ValidatePluginConfig cfgRunc).cfg.containerd.runtimes
        (ValidatePluginConfig cfgRunc).cfg.containerd.defaultRuntimeName).isSome) ∧
    (ValidatePluginConfig cfgNoName).err = some .defaultRuntimeNameEmpty ∧
    (ValidatePluginConfig cfgMissingName).err =
      some (.noRuntimeForDefault "absent") :=
  ⟨claim_C1.1 cfgRunc (by decide),
   claim_C1.2.1 cfgNoName (by decide) (by decide) (by decide),
   claim_C1.2.2 cfgMissingName (by decide) (by decide) (by decide) (by decide)⟩

/-- C4.  A non-empty legacy untrusted-workload runtime type together with an
existing `untrusted` registry key makes the whole validation fail with the
conflict error, leaving the configuration (in particular the runtime
registry) exactly as it was, the deprecation warning being the only output;
without an `untrusted` key, the migration step inserts the legacy runtime
under that reserved key. -/
theorem claim_C4 :
    (∀ c : PluginConfig,
      c.containerd.untrustedWorkloadRuntime.type ≠ "" →
      (lookupA c.containerd.runtimes RuntimeUntrusted).isSome →
      ValidatePluginConfig c =
        ⟨c, [.untrustedWorkloadRuntimeDeprecated], some .untrustedConflict⟩) ∧
    (∀ c : PluginConfig,
      c.containerd.untrustedWorkloadRuntime.type ≠ "" →
      lookupA c.containerd.runtimes RuntimeUntrusted = none →
      (stepUntrusted c).err = none ∧
      lookupA (stepUntrusted c).cfg.containerd.runtimes RuntimeUntrusted =
        some c.containerd.untrustedWorkloadRuntime) := by
  constructor
  · intro c hT hK
    have e := stepUntrusted_of_conflict c hT hK
    have hv : ValidatePluginConfig c = pipe1 c := by
      apply validate_of_pipe1_err
      show (stepUntrusted c).err ≠ none
      rw [e]
      simp
    rw [hv]
    show stepUntrusted c = _
    rw [e]
  · intro c hT hK
    rw [stepUntrusted_of_migrate c hT hK]
    exact ⟨rfl, lookupA_insertA_self _ _ _⟩

/-- C4 witness: the conflict scenario and the clean-migration scenario. -/
theorem claim_C4_witness :
    ValidatePluginConfig cfgUntrustedConflict =
      ⟨cfgUntrustedConflict, [.untrustedWorkloadRuntimeDeprecated],
        some .untrustedConflict⟩ ∧
    ((stepUntrusted cfgUntrustedLegacy).err = none ∧
      lookupA (stepUntrusted cfgUntrustedLegacy).cfg.containerd.runtimes
        RuntimeUntrusted = some rtRuncV2) :=
  ⟨claim_C4.1 cfgUntrustedConflict (by decide) (by decide),
   claim_C4.2 cfgUntrustedLegacy (by decide) (by decide)⟩

/-- C5.  A non-empty legacy default-runtime type makes the migration pass
unconditionally (no error, no conflict check) point the default-handler name
at the reserved `default` key and overwrite that registry entry, last writer
winning; consequently a successful validation ends with
`default_runtime_name = "default"` and a `default` handler of the legacy
type, and the spec's concrete scenario validates to exactly that. -/
theorem claim_C5 :
    (∀ c : PluginConfig, c.containerd.defaultRuntime.type ≠ "" →
      stepDefaultRuntime c = ⟨{ c with containerd := { c.containerd with
          defaultRuntimeName := RuntimeDefault,
          runtimes := insertA c.containerd.runtimes RuntimeDefault
            c.containerd.defaultRuntime } },
        [.defaultRuntimeDeprecated], none⟩) ∧
    (∀ c : PluginConfig, c.containerd.defaultRuntime.type ≠ "" →
      (ValidatePluginConfig c).err = none →
      (ValidatePluginConfig c).cfg.containerd.defaultRuntimeName =
        RuntimeDefault ∧
      ∃ r, lookupA (ValidatePluginConfig c).cfg.containerd.runtimes
          RuntimeDefault = some r ∧
        r.type = c.containerd.defaultRuntime.type) ∧
    ((ValidatePluginConfig cfgLegacyDefault).err = none ∧
     (ValidatePluginConfig cfgLegacyDefault).cfg.containerd.defaultRuntimeName
       = "default" ∧
     (lookupA (ValidatePluginConfig cfgLegacyDefault).cfg.containerd.runtimes
       "default").map Runtime.type = some "io.containerd.runc.v2") := by
  refine ⟨fun c h => stepDefaultRuntime_of_migrate c h, ?_, ?_⟩
  · intro c hT h
    obtain ⟨h1, h2, h3, h4, h5, h6, h7, h8, h9, h10⟩ := validate_ok_decomp c h
    rw [validate_cfg_of_ok c h]
    obtain ⟨r1, e1⟩ := stepUntrusted_cfg_shape c
    have hT' : (stepUntrusted c).cfg.containerd.defaultRuntime.type ≠ "" := by
      rw [e1]; exact hT
    have eB : midB c = { (stepUntrusted c).cfg with containerd :=
        { (stepUntrusted c).cfg.containerd with
          defaultRuntimeName := RuntimeDefault,
          runtimes := insertA (stepUntrusted c).cfg.containerd.runtimes
            RuntimeDefault (stepUntrusted c).cfg.containerd.defaultRuntime } }
        := by
      show (stepDefaultRuntime (stepUntrusted c).cfg).cfg = _
      rw [stepDefaultRuntime_of_migrate _ hT']
    have h5' := (stepRuntimes_err_none_iff _).mp h5
    have hC := midC_of_ok c h5'
    rw [midD_containerd, hC]
    constructor
    · rw [eB]
    · have hlk : lookupA (midB c).containerd.runtimes RuntimeDefault =
          some (stepUntrusted c).cfg.containerd.defaultRuntime := by
        rw [eB]
        exact lookupA_insertA_self _ _ _
      refine ⟨applySandboxDefault
        (stepUntrusted c).cfg.containerd.defaultRuntime, ?_, ?_⟩
      · simp only [lookupA_mapValsA, hlk, Option.map_some']
      · rw [show (stepUntrusted c).cfg.containerd.defaultRuntime =
            c.containerd.defaultRuntime by rw [e1]]
        unfold applySandboxDefault
        split_ifs <;> rfl
  · refine ⟨by decide, by decide, by decide⟩

/-- C5 witness: both universal parts instantiated at the legacy-default
scenario. -/
theorem claim_C5_witness :
    (stepDefaultRuntime cfgLegacyDefault =
      ⟨{ cfgLegacyDefault with containerd :=
          { cfgLegacyDefault.containerd with
            defaultRuntimeName := RuntimeDefault,
            runtimes := insertA cfgLegacyDefault.containerd.runtimes
              RuntimeDefault cfgLegacyDefault.containerd.defaultRuntime } },
        [.defaultRuntimeDeprecated], none⟩) ∧
    ((ValidatePluginConfig cfgLegacyDefault).cfg.containerd.defaultRuntimeName
        = RuntimeDefault ∧
      ∃ r, lookupA (ValidatePluginConfig cfgLegacyDefault).cfg.containerd.runtimes
          RuntimeDefault = some r ∧
        r.type = cfgLegacyDefault.containerd.defaultRuntime.type) :=
  ⟨claim_C5.1 cfgLegacyDefault (by decide),
   claim_C5.2.1 cfgLegacyDefault (by decide) (by decide)⟩

/-- C8.  With a non-empty registry config-path, a non-empty mirror mapping
makes validation fail, and inline TLS material in any per-host config makes
validation fail; with an empty config-path the same settings only produce
deprecation warnings from this pass, never an error. -/
theorem claim_C8 :
    (∀ c : PluginConfig, c.registry.configPath ≠ "" →
      c.registry.mirrors ≠ [] → (ValidatePluginConfig c).err ≠ none) ∧
    (∀ c : PluginConfig, c.registry.configPath ≠ "" →
      hasDeprecatedTLS c.registry.configs = true →
      (ValidatePluginConfig c).err ≠ none) ∧
    (∀ c : PluginConfig, c.registry.configPath = "" →
      stepRegistryDeprecated c = ⟨c,
        (if c.registry.mirrors.length > 0 then [.mirrorsDeprecated] else []) ++
          (if hasDeprecatedTLS c.registry.configs then [.configsTLSDeprecated]
            else []),
        none⟩) := by
  refine ⟨?_, ?_, fun c h => stepRegistryDeprecated_of_no_config_path c h⟩
  · intro c hPath hMir h
    obtain ⟨h1, h2, h3, h4, h5, h6, h7, h8, h9, h10⟩ := validate_ok_decomp c h
    obtain ⟨n, rts, eC⟩ := midC_shape c
    obtain ⟨hm, _⟩ := (stepRegistryDeprecated_err_none_iff _).mp h6
    rw [eC] at hm
    exact hPath (hm (by simpa using List.length_pos.mpr hMir))
  · intro c hPath hTLS h
    obtain ⟨h1, h2, h3, h4, h5, h6, h7, h8, h9, h10⟩ := validate_ok_decomp c h
    obtain ⟨n, rts, eC⟩ := midC_shape c
    obtain ⟨_, ht⟩ := (stepRegistryDeprecated_err_none_iff _).mp h6
    rw [eC] at ht
    exact hPath (ht (by simpa using hTLS))

/-- C8 witness: the two conflict scenarios fail and the warning-only
scenario runs the pass without error. -/
theorem claim_C8_witness :
    (ValidatePluginConfig cfgMirrorsConflict).err ≠ none ∧
    (ValidatePluginConfig cfgTLSConflict).err ≠ none ∧
    stepRegistryDeprecated cfgMirrorsWarn = ⟨cfgMirrorsWarn,
      [.mirrorsDeprecated, .configsTLSDeprecated], none⟩ :=
  ⟨claim_C8.1 cfgMirrorsConflict (by decide) (by decide),
   claim_C8.2.1 cfgTLSConflict (by decide) (by decide),
   by
    have := claim_C8.2.2 cfgMirrorsWarn (by decide)
    simpa using this⟩

/-- C9.  The legacy scalar overrides are restricted to the v1 Linux runtime
type: the top-level systemd-cgroup and no-pivot flags fail the flags pass
with the corresponding type-mismatch error when the default handler's type
differs (and hence the whole validation fails), a handler's legacy engine or
root field with a different type makes validation fail, and in the valid
cases systemd-cgroup logs its deprecation warning while no-pivot is silent,
engine and root each logging theirs inside the per-handler check. -/
theorem claim_C9 :
    (∀ c : PluginConfig, c.systemdCgroup = true →
      runtimeTypeAt c c.containerd.defaultRuntimeName ≠ RuntimeLinuxV1 →
      stepDeprecatedFlags c = ⟨c, [], some .systemdCgroupOnlyLinuxV1⟩) ∧
    (∀ c : PluginConfig, c.systemdCgroup = true →
      runtimeTypeAt (midB c) (midB c).containerd.defaultRuntimeName ≠
        RuntimeLinuxV1 →
      (ValidatePluginConfig c).err ≠ none) ∧
    (∀ c : PluginConfig, c.containerd.noPivot = true →
      runtimeTypeAt (midB c) (midB c).containerd.defaultRuntimeName ≠
        RuntimeLinuxV1 →
      (ValidatePluginConfig c).err ≠ none) ∧
    (∀ c : PluginConfig, ∀ p ∈ (midB c).containerd.runtimes,
      p.2.engine ≠ "" → p.2.type ≠ RuntimeLinuxV1 →
      (ValidatePluginConfig c).err ≠ none) ∧
    (∀ c : PluginConfig, ∀ p ∈ (midB c).containerd.runtimes,
      p.2.root ≠ "" → p.2.type ≠ RuntimeLinuxV1 →
      (ValidatePluginConfig c).err ≠ none) ∧
    (∀ c : PluginConfig,
      runtimeTypeAt c c.containerd.defaultRuntimeName = RuntimeLinuxV1 →
      stepDeprecatedFlags c =
        ⟨c, if c.systemdCgroup then [.systemdCgroupDeprecated] else [],
          none⟩) ∧
    (∀ r : Runtime, r.type = RuntimeLinuxV1 →
      (checkRuntime r).2.1 =
        (if r.engine ≠ "" then [.runtimeEngineDeprecated] else []) ++
          (if r.root ≠ "" then [.runtimeRootDeprecated] else [])) := by
  refine ⟨fun c h1 h2 => stepDeprecatedFlags_of_systemd_bad c h1 h2,
    ?_, ?_, ?_, ?_, fun c h => stepDeprecatedFlags_of_valid c h, ?_⟩
  · intro c hFlag hType h
    obtain ⟨h1, h2, h3, h4, h5, h6, h7, h8, h9, h10⟩ := validate_ok_decomp c h
    obtain ⟨n, rts, eB⟩ := midB_shape c
    obtain ⟨hs, _⟩ := (stepDeprecatedFlags_err_none_iff _).mp h4
    exact hType (hs (by rw [eB]; exact hFlag))
  · intro c hFlag hType h
    obtain ⟨h1, h2, h3, h4, h5, h6, h7, h8, h9, h10⟩ := validate_ok_decomp c h
    obtain ⟨n, rts, eB⟩ := midB_shape c
    obtain ⟨_, hn⟩ := (stepDeprecatedFlags_err_none_iff _).mp h4
    exact hType (hn (by rw [eB]; exact hFlag))
  · intro c p hp hE hT h
    obtain ⟨h1, h2, h3, h4, h5, h6, h7, h8, h9, h10⟩ := validate_ok_decomp c h
    have h5' := (stepRuntimes_err_none_iff _).mp h5
    obtain ⟨he, _, _⟩ := (checkRuntime_err_none_iff _).mp (h5' p hp)
    exact hT (he hE)
  · intro c p hp hR hT h
    obtain ⟨h1, h2, h3, h4, h5, h6, h7, h8, h9, h10⟩ := validate_ok_decomp c h
    have h5' := (stepRuntimes_err_none_iff _).mp h5
    obtain ⟨_, hr, _⟩ := (checkRuntime_err_none_iff _).mp (h5' p hp)
    exact hT (hr hR)
  · intro r hT
    unfold checkRuntime
    by_cases h1 : r.engine = "" <;>
      by_cases h2 : r.root = "" <;>
        by_cases hp : r.privilegedWithoutHostDevices = false ∧
            r.privilegedWithoutHostDevicesAllDevicesAllowed = true <;>
          by_cases hm : r.sandboxMode = "" <;>
            simp [h1, h2, hT, hp, hm]

/-- C9 witness: each universal part at a concrete configuration (invalid
systemd-cgroup, no-pivot, engine and root uses fail; a v1-Linux setup logs
the systemd warning with no no-pivot warning; a v1-Linux handler with both
legacy fields logs both per-handler warnings). -/
theorem claim_C9_witness :
    stepDeprecatedFlags cfgSystemdBad =
      ⟨cfgSystemdBad, [], some .systemdCgroupOnlyLinuxV1⟩ ∧
    (ValidatePluginConfig cfgSystemdBad).err ≠ none ∧
    (ValidatePluginConfig cfgNoPivotBad).err ≠ none ∧
    (ValidatePluginConfig cfgEngineBad).err ≠ none ∧
    (ValidatePluginConfig cfgRootBad).err ≠ none ∧
    stepDeprecatedFlags cfgLinuxFlags =
      ⟨cfgLinuxFlags, [.systemdCgroupDeprecated], none⟩ ∧
    (checkRuntime rtLinuxLegacy).2.1 =
      [.runtimeEngineDeprecated, .runtimeRootDeprecated] :=
  ⟨claim_C9.1 cfgSystemdBad (by decide) (by decide),
   claim_C9.2.1 cfgSystemdBad (by decide) (by decide),
   claim_C9.2.2.1 cfgNoPivotBad (by decide) (by decide),
   claim_C9.2.2.2.1 cfgEngineBad
     ("runc", { rtRuncV2 with engine := "legacy" }) (by decide) (by decide)
     (by decide),
   claim_C9.2.2.2.2.1 cfgRootBad
     ("runc", { rtRuncV2 with root := "/var/lib/x" }) (by decide) (by decide)
     (by decide),
   by
    have := claim_C9.2.2.2.2.2.1 cfgLinuxFlags (by decide)
    simpa using this,
   by
    have := claim_C9.2.2.2.2.2.2 rtLinuxLegacy (by decide)
    simpa using this⟩

theorem mem_mapValsA_ex {α β : Type} (f : α → β) (l : List (String × α))
    (q : String × β) (h : q ∈ mapValsA f l) : ∃ v, (q.1, v) ∈ l ∧ q.2 = f v := by
  induction l with
  | nil => simp [mapValsA] at h
  | cons p rest ih =>
    obtain ⟨k, v⟩ := p
    simp only [mapValsA, List.mem_cons] at h
    rcases h with h | h
    · exact ⟨v, by simp [h]⟩
    · obtain ⟨v', hv', he⟩ := ih h
      exact ⟨v', List.mem_cons_of_mem _ hv', he⟩

theorem applySandboxDefault_priv (r : Runtime) :
    (applySandboxDefault r).privilegedWithoutHostDevices =
      r.privilegedWithoutHostDevices := by
  unfold applySandboxDefault; split_ifs <;> rfl

theorem applySandboxDefault_allDevices (r : Runtime) :
    (applySandboxDefault r).privilegedWithoutHostDevicesAllDevicesAllowed =
      r.privilegedWithoutHostDevicesAllDevicesAllowed := by
  unfold applySandboxDefault; split_ifs <;> rfl

theorem applySandboxDefault_mode_ne (r : Runtime) :
    (applySandboxDefault r).sandboxMode ≠ "" := by
  unfold applySandboxDefault
  split_ifs with h
  · show ModePodSandbox ≠ ""
    unfold ModePodSandbox
    simp
  · exact h

theorem stepUntrusted_err_none_iff (c : PluginConfig) :
    (stepUntrusted c).err = none ↔
      (c.containerd.untrustedWorkloadRuntime.type = "" ∨
        lookupA c.containerd.runtimes RuntimeUntrusted = none) := by
  unfold stepUntrusted
  by_cases h1 : c.containerd.untrustedWorkloadRuntime.type = "" <;>
    cases hlk : lookupA c.containerd.runtimes RuntimeUntrusted <;>
      simp [h1, hlk]

/-- C2 counterexample.  The claim as stated is false on two counts: a
successful validation may leave a handler whose sandbox-controller mode is
outside the `podsandbox`/`shim` enumeration (no membership check exists),
and an input containing a handler violating the host-devices implication may
still pass when that handler sits at the reserved `default` key and the
legacy default-runtime migration overwrites it before the check. -/
theorem claim_C2_counterexample :
    ((ValidatePluginConfig cfgBogusMode).err = none ∧
      (lookupA (ValidatePluginConfig cfgBogusMode).cfg.containerd.runtimes
        "runc").map Runtime.sandboxMode = some "bogus" ∧
      ("bogus" : String) ≠ ModePodSandbox ∧ ("bogus" : String) ≠ ModeShim) ∧
    ((∃ p ∈ cfgOverwrite.containerd.runtimes,
        p.2.privilegedWithoutHostDevicesAllDevicesAllowed = true ∧
        p.2.privilegedWithoutHostDevices = false) ∧
      (ValidatePluginConfig cfgOverwrite).err = none) := by
  refine ⟨⟨by decide, by decide, by decide, by decide⟩, ⟨?_, by decide⟩⟩
  exact ⟨("default", rtViolator), by decide, by decide, by decide⟩

/-- C2 (amended).  After a successful validation every handler in the final
registry satisfies the host-devices implication and carries a non-empty
sandbox-controller mode; the final registry is the pre-loop registry with
`applySandboxDefault` applied to every handler (an empty mode becomes
`podsandbox`, any non-empty mode — in the enumeration or not — is kept); and
an input handler violating the implication is rejected whenever it is not
overwritten by the legacy default-runtime migration. -/
theorem claim_C2 :
    (∀ c : PluginConfig, (ValidatePluginConfig c).err = none →
      ∀ p ∈ (ValidatePluginConfig c).cfg.containerd.runtimes,
        (p.2.privilegedWithoutHostDevicesAllDevicesAllowed = true →
          p.2.privilegedWithoutHostDevices = true) ∧
        p.2.sandboxMode ≠ "") ∧
    (∀ c : PluginConfig, (ValidatePluginConfig c).err = none →
      (ValidatePluginConfig c).cfg.containerd.runtimes =
        mapValsA applySandboxDefault (midB c).containerd.runtimes) ∧
    (∀ (c : PluginConfig) (k : String) (r : Runtime),
      lookupA c.containerd.runtimes k = some r →
      r.privilegedWithoutHostDevicesAllDevicesAllowed = true →
      r.privilegedWithoutHostDevices = false →
      (k = RuntimeDefault → c.containerd.defaultRuntime.type = "") →
      (ValidatePluginConfig c).err ≠ none) := by
  have final_eq : ∀ c : PluginConfig, (ValidatePluginConfig c).err = none →
      (ValidatePluginConfig c).cfg.containerd.runtimes =
        mapValsA applySandboxDefault (midB c).containerd.runtimes := by
    intro c h
    obtain ⟨h1, h2, h3, h4, h5, h6, h7, h8, h9, h10⟩ := validate_ok_decomp c h
    rw [validate_cfg_of_ok c h, midD_containerd,
      midC_of_ok c ((stepRuntimes_err_none_iff _).mp h5)]
  refine ⟨?_, final_eq, ?_⟩
  · intro c h p hp
    obtain ⟨h1, h2, h3, h4, h5, h6, h7, h8, h9, h10⟩ := validate_ok_decomp c h
    rw [final_eq c h] at hp
    obtain ⟨v, hv, he⟩ := mem_mapValsA_ex _ _ _ hp
    have hok := (stepRuntimes_err_none_iff _).mp h5 (p.1, v) hv
    obtain ⟨_, _, hdev⟩ := (checkRuntime_err_none_iff _).mp hok
    refine ⟨?_, ?_⟩
    · intro hA
      rw [he, applySandboxDefault_priv]
      rw [he, applySandboxDefault_allDevices] at hA
      have := hdev (by simp [hA])
      simpa using this
    · rw [he]
      exact applySandboxDefault_mode_ne v
  · intro c k r hlk hA hP hEx h
    obtain ⟨h1, h2, h3, h4, h5, h6, h7, h8, h9, h10⟩ := validate_ok_decomp c h
    -- After the untrusted migration the violating binding is still found.
    have hlk1 : lookupA (stepUntrusted c).cfg.containerd.runtimes k = some r := by
      by_cases hU : c.containerd.untrustedWorkloadRuntime.type = ""
      · rw [stepUntrusted_of_empty c hU]
        exact hlk
      · rcases (stepUntrusted_err_none_iff c).mp h1 with hU' | hNone
        · exact absurd hU' hU
        · have hkU : k ≠ RuntimeUntrusted := by
            intro he
            rw [he, hNone] at hlk
            cases hlk
          rw [stepUntrusted_of_migrate c hU hNone]
          show lookupA (insertA _ _ _) k = some r
          rw [lookupA_insertA_of_ne _ _ _ _ hkU]
          exact hlk
    -- And still found after the default-runtime migration.
    have hlkB : lookupA (midB c).containerd.runtimes k = some r := by
      have hpres : (stepUntrusted c).cfg.containerd.defaultRuntime =
          c.containerd.defaultRuntime := by
        obtain ⟨rts, e⟩ := stepUntrusted_cfg_shape c
        rw [e]
      by_cases hD : c.containerd.defaultRuntime.type = ""
      · have : midB c = (stepUntrusted c).cfg := by
          show (stepDefaultRuntime (stepUntrusted c).cfg).cfg = _
          rw [stepDefaultRuntime_of_empty _ (by rw [hpres]; exact hD)]
        rw [this]
        exact hlk1
      · have hkD : k ≠ RuntimeDefault := fun he => hD (hEx he)
        have : midB c = { (stepUntrusted c).cfg with containerd :=
            { (stepUntrusted c).cfg.containerd with
              defaultRuntimeName := RuntimeDefault,
              runtimes := insertA (stepUntrusted c).cfg.containerd.runtimes
                RuntimeDefault (stepUntrusted c).cfg.containerd.defaultRuntime } }
            := by
          show (stepDefaultRuntime (stepUntrusted c).cfg).cfg = _
          rw [stepDefaultRuntime_of_migrate _ (by rw [hpres]; exact hD)]
        rw [this]
        show lookupA (insertA _ _ _) k = some r
        rw [lookupA_insertA_of_ne _ _ _ _ hkD]
        exact hlk1
    have hmem := lookupA_some_mem _ _ _ hlkB
    have hok := (stepRuntimes_err_none_iff _).mp h5 (k, r) hmem
    obtain ⟨_, _, hdev⟩ := (checkRuntime_err_none_iff _).mp hok
    have := hdev (by simp [hA])
    rw [hP] at this
    cases this

/-- C2 witness: the amended parts at concrete inputs — a passing
configuration with a bogus mode keeps it and satisfies the implication, and
a violating handler at a non-reserved key is rejected. -/
theorem claim_C2_witness :
    (∀ p ∈ (ValidatePluginConfig cfgBogusMode).cfg.containerd.runtimes,
      (p.2.privilegedWithoutHostDevicesAllDevicesAllowed = true →
        p.2.privilegedWithoutHostDevices = true) ∧ p.2.sandboxMode ≠ "") ∧
    (ValidatePluginConfig cfgBogusMode).cfg.containerd.runtimes =
      mapValsA applySandboxDefault (midB cfgBogusMode).containerd.runtimes ∧
    (ValidatePluginConfig
      { containerd := { defaultRuntimeName := "runc",
                        runtimes := [("runc", rtViolator)] } }).err ≠ none :=
  ⟨claim_C2.1 cfgBogusMode (by decide),
   claim_C2.2.1 cfgBogusMode (by decide),
   claim_C2.2.2 _ "runc" rtViolator (by decide) (by decide) (by decide)
     (by decide)⟩

theorem stepStreamIdleTimeout_of_err (c : PluginConfig) (msg : String)
    (h1 : c.streamIdleTimeout ≠ "")
    (h2 : parseDuration c.streamIdleTimeout = .error msg) :
    stepStreamIdleTimeout c = ⟨c, [], some (.invalidStreamIdleTimeout msg)⟩ := by
  unfold stepStreamIdleTimeout
  rw [if_pos h1, h2]

theorem stepImagePullProgressTimeout_of_err (c : PluginConfig) (msg : String)
    (h1 : c.imagePullProgressTimeout ≠ "")
    (h2 : parseDuration c.imagePullProgressTimeout = .error msg) :
    stepImagePullProgressTimeout c =
      ⟨c, [], some (.invalidImagePullProgressTimeout msg)⟩ := by
  unfold stepImagePullProgressTimeout
  rw [if_pos h1, h2]

theorem stepDrainExecSync_of_err (c : PluginConfig) (msg : String)
    (h1 : c.drainExecSyncIOTimeout ≠ "")
    (h2 : parseDuration c.drainExecSyncIOTimeout = .error msg) :
    stepDrainExecSync c = ⟨c, [], some (.invalidDrainExecSyncTimeout msg)⟩ := by
  unfold stepDrainExecSync
  rw [if_pos h1, h2]

/-- C7 counterexample.  The claim requires a non-empty timeout string to be
non-negative, but the Go duration grammar is signed: `-30s` parses to a
negative duration and the validation accepts it. -/
theorem claim_C7_counterexample :
    cfgNegDur.streamIdleTimeout = "-30s" ∧
    parseDuration "-30s" = .ok (-30000000000) ∧
    (-30000000000 : Int) < 0 ∧
    (ValidatePluginConfig cfgNegDur).err = none := by
  refine ⟨by decide, by rfl, by decide, by decide⟩

/-- C7 (amended).  For each of the three timeout fields an empty string is
always accepted; a non-empty string must parse as a Go duration — a signed
value, so negative durations are accepted too — and otherwise the pass fails
with the malformed-value error naming the field and the whole validation
fails; `30s` parses (to 30 s in nanoseconds) and `not-a-duration` does not,
so the corresponding configurations are accepted and rejected
respectively. -/
theorem claim_C7 :
    (∀ c : PluginConfig,
      (c.streamIdleTimeout = "" → (stepStreamIdleTimeout c).err = none) ∧
      (c.imagePullProgressTimeout = "" →
        (stepImagePullProgressTimeout c).err = none) ∧
      (c.drainExecSyncIOTimeout = "" → (stepDrainExecSync c).err = none)) ∧
    (∀ (c : PluginConfig) (msg : String), c.streamIdleTimeout ≠ "" →
      parseDuration c.streamIdleTimeout = .error msg →
      (stepStreamIdleTimeout c).err = some (.invalidStreamIdleTimeout msg) ∧
      (ValidatePluginConfig c).err ≠ none) ∧
    (∀ (c : PluginConfig) (msg : String), c.imagePullProgressTimeout ≠ "" →
      parseDuration c.imagePullProgressTimeout = .error msg →
      (stepImagePullProgressTimeout c).err =
        some (.invalidImagePullProgressTimeout msg) ∧
      (ValidatePluginConfig c).err ≠ none) ∧
    (∀ (c : PluginConfig) (msg : String), c.drainExecSyncIOTimeout ≠ "" →
      parseDuration c.drainExecSyncIOTimeout = .error msg →
      (stepDrainExecSync c).err = some (.invalidDrainExecSyncTimeout msg) ∧
      (ValidatePluginConfig c).err ≠ none) ∧
    (parseDuration "30s" = .ok 30000000000 ∧
      ∃ m, parseDuration "not-a-duration" = Except.error m) ∧
    ((ValidatePluginConfig cfg30s).err = none ∧
      (ValidatePluginConfig cfgBadDur).err ≠ none) := by
  refine ⟨?_, ?_, ?_, ?_, ⟨by rfl, "invalid duration", by rfl⟩,
    by decide, by decide⟩
  · intro c
    refine ⟨fun h => ?_, fun h => ?_, fun h => ?_⟩
    · unfold stepStreamIdleTimeout; simp [h]
    · unfold stepImagePullProgressTimeout; simp [h]
    · unfold stepDrainExecSync; simp [h]
  · intro c msg hne hp
    refine ⟨by rw [stepStreamIdleTimeout_of_err c msg hne hp], ?_⟩
    intro h
    obtain ⟨h1, h2, h3, h4, h5, h6, h7, h8, h9, h10⟩ := validate_ok_decomp c h
    obtain ⟨n, rts, cfgs, eD⟩ := midD_shape c
    rcases (stepStreamIdleTimeout_err_none_iff _).mp h8 with he | ⟨v, hv⟩
    · rw [eD] at he; exact hne he
    · rw [eD] at hv
      show False
      rw [show (({ c with
          containerd := { c.containerd with
            defaultRuntimeName := n, runtimes := rts },
          registry := { c.registry with configs := cfgs } } :
          PluginConfig)).streamIdleTimeout = c.streamIdleTimeout from rfl]
        at hv
      rw [hp] at hv
      cases hv
  · intro c msg hne hp
    refine ⟨by rw [stepImagePullProgressTimeout_of_err c msg hne hp], ?_⟩
    intro h
    obtain ⟨h1, h2, h3, h4, h5, h6, h7, h8, h9, h10⟩ := validate_ok_decomp c h
    obtain ⟨n, rts, cfgs, eD⟩ := midD_shape c
    rcases (stepImagePullProgressTimeout_err_none_iff _).mp h9 with he | ⟨v, hv⟩
    · rw [eD] at he; exact hne he
    · rw [eD] at hv
      rw [show (({ c with
          containerd := { c.containerd with
            defaultRuntimeName := n, runtimes := rts },
          registry := { c.registry with configs := cfgs } } :
          PluginConfig)).imagePullProgressTimeout = c.imagePullProgressTimeout
          from rfl] at hv
      rw [hp] at hv
      cases hv
  · intro c msg hne hp
    refine ⟨by rw [stepDrainExecSync_of_err c msg hne hp], ?_⟩
    intro h
    obtain ⟨h1, h2, h3, h4, h5, h6, h7, h8, h9, h10⟩ := validate_ok_decomp c h
    obtain ⟨n, rts, cfgs, eD⟩ := midD_shape c
    rcases (stepDrainExecSync_err_none_iff _).mp h10 with he | ⟨v, hv⟩
    · rw [eD] at he; exact hne he
    · rw [eD] at hv
      rw [show (({ c with
          containerd := { c.containerd with
            defaultRuntimeName := n, runtimes := rts },
          registry := { c.registry with configs := cfgs } } :
          PluginConfig)).drainExecSyncIOTimeout = c.drainExecSyncIOTimeout
          from rfl] at hv
      rw [hp] at hv
      cases hv

/-- C7 witness: the universal parts at concrete inputs (empty strings pass
the three passes; `not-a-duration` fails the stream-idle pass and the whole
validation). -/
theorem claim_C7_witness :
    ((cfgRunc.streamIdleTimeout = "" → (stepStreamIdleTimeout cfgRunc).err = none) ∧
      (cfgRunc.imagePullProgressTimeout = "" →
        (stepImagePullProgressTimeout cfgRunc).err = none) ∧
      (cfgRunc.drainExecSyncIOTimeout = "" →
        (stepDrainExecSync cfgRunc).err = none)) ∧
    ((stepStreamIdleTimeout cfgBadDur).err =
        some (.invalidStreamIdleTimeout "invalid duration") ∧
      (ValidatePluginConfig cfgBadDur).err ≠ none) :=
  ⟨claim_C7.1 cfgRunc,
   claim_C7.2.1 cfgBadDur "invalid duration" (by decide) (by rfl)⟩

theorem lastAuth_of_mem (auths : List (String × AuthConfig))
    (e : String) (a : AuthConfig) (h : (e, a) ∈ auths) :
    lastAuth auths (migKey e) ≠ none := by
  induction auths with
  | nil => simp at h
  | cons p rest ih =>
    obtain ⟨e', a'⟩ := p
    show (match lastAuth rest (migKey e) with
      | some a' => some a'
      | none => if migKey e' = migKey e then some a' else none) ≠ none
    rcases List.mem_cons.mp h with he | he
    · obtain ⟨he1, _⟩ := Prod.mk.injEq .. ▸ he
      cases hl : lastAuth rest (migKey e) with
      | some x => simp
      | none =>
        cases he
        simp
    · have := ih he
      cases hl : lastAuth rest (migKey e) with
      | some x => simp
      | none => exact absurd hl this

theorem midC_registry (c : PluginConfig) : (midC c).registry = c.registry := by
  obtain ⟨n, rts, e⟩ := midC_shape c
  rw [e]

/-- The per-host config table a successful validation ends with, looked up
key by key: a key some legacy auth entry migrated to holds the last such
auth with the key's previous TLS material; every other key is untouched. -/
theorem final_configs_lookup (c : PluginConfig)
    (h : (ValidatePluginConfig c).err = none) (k : String) :
    lookupA (ValidatePluginConfig c).cfg.registry.configs k =
      match lastAuth c.registry.auths k with
      | some a => some ⟨some a, tlsOf (lookupA c.registry.configs k)⟩
      | none => lookupA c.registry.configs k := by
  obtain ⟨h1, h2, h3, h4, h5, h6, h7, h8, h9, h10⟩ := validate_ok_decomp c h
  rw [validate_cfg_of_ok c h]
  have hreg := midC_registry c
  by_cases hA : c.registry.auths = []
  · have : midD c = midC c := by
      show (stepAuths (midC c)).cfg = _
      rw [stepAuths_of_empty (midC c) (by rw [hreg]; exact hA)]
    rw [this, hreg, hA]
    rfl
  · have hAc : (midC c).registry.auths ≠ [] := by rw [hreg]; exact hA
    have : (midD c).registry.configs =
        (authsLoop c.registry.auths c.registry.configs).1 := by
      show (stepAuths (midC c)).cfg.registry.configs = _
      rw [stepAuths_cfg_of_nonempty (midC c) hAc]
      show (authsLoop (midC c).registry.auths (midC c).registry.configs).1 = _
      rw [hreg]
    rw [this]
    have hok : ∀ p ∈ c.registry.auths, ∃ u, urlParse p.1 = Except.ok u := by
      have := (stepAuths_err_none_iff (midC c)).mp h7
      rw [hreg] at this
      exact this
    exact authsLoop_lookup_of_ok c.registry.auths hok c.registry.configs k

/-- C6.  Every legacy endpoint-auth entry is migrated into the per-host
config table: a non-parsing endpoint fails the migration pass with the
malformed-value error naming it (and the whole validation fails); on
success, each entry's endpoint parses and the table holds credentials under
the host component when the URL carries a scheme (the endpoint itself
otherwise); the spec's scenario — `https://registry.example.com` with
username `u`, password `p` — lands under key `registry.example.com` with
those credentials, even though the external config-directory path is set. -/
theorem claim_C6 :
    (∀ (c : PluginConfig) (p : String × AuthConfig) (msg : String),
      p ∈ c.registry.auths → urlParse p.1 = .error msg →
      (ValidatePluginConfig c).err ≠ none) ∧
    (∀ (c : PluginConfig) (e : String) (a : AuthConfig)
        (rest : List (String × AuthConfig)) (msg : String),
      c.registry.auths = (e, a) :: rest → urlParse e = .error msg →
      (stepAuths c).err = some (.parseRegistryURL e msg)) ∧
    (∀ c : PluginConfig, (ValidatePluginConfig c).err = none →
      ∀ p ∈ c.registry.auths, ∃ u, urlParse p.1 = Except.ok u ∧
        ∃ rc, lookupA (ValidatePluginConfig c).cfg.registry.configs
            (if u.scheme ≠ "" then u.host else p.1) = some rc ∧
          rc.auth.isSome) ∧
    ((ValidatePluginConfig cfgAuthMigrate).err = none ∧
      cfgAuthMigrate.registry.configPath ≠ "" ∧
      lookupA (ValidatePluginConfig cfgAuthMigrate).cfg.registry.configs
          "registry.example.com" =
        some { auth := some { username := "u", password := "p" } }) := by
  refine ⟨?_, ?_, ?_, by decide, by decide, by decide⟩
  · intro c p msg hp hbad h
    obtain ⟨h1, h2, h3, h4, h5, h6, h7, h8, h9, h10⟩ := validate_ok_decomp c h
    have hok := (stepAuths_err_none_iff (midC c)).mp h7
    rw [midC_registry] at hok
    obtain ⟨u, hu⟩ := hok p hp
    rw [hbad] at hu
    cases hu
  · intro c e a rest msg hA hbad
    unfold stepAuths
    have hlen : c.registry.auths.length ≠ 0 := by rw [hA]; simp
    rw [if_pos hlen, hA]
    rw [authsLoop_cons_err e a rest c.registry.configs msg hbad]
  · intro c h p hp
    obtain ⟨h1, h2, h3, h4, h5, h6, h7, h8, h9, h10⟩ := validate_ok_decomp c h
    have hok := (stepAuths_err_none_iff (midC c)).mp h7
    rw [midC_registry] at hok
    obtain ⟨u, hu⟩ := hok p hp
    refine ⟨u, hu, ?_⟩
    have hkey : (if u.scheme ≠ "" then u.host else p.1) = migKey p.1 := by
      unfold migKey; rw [hu]
    rw [hkey]
    rw [final_configs_lookup c h (migKey p.1)]
    obtain ⟨e, a⟩ := p
    cases hl : lastAuth c.registry.auths (migKey e) with
    | none => exact absurd hl (lastAuth_of_mem c.registry.auths e a hp)
    | some a' => exact ⟨_, rfl, by simp⟩

/-- C6 witness: the universal parts at concrete inputs (a non-parsing
endpoint `:foo` fails both the pass and the validation; the migrated
scenario entry is found under its stripped host key). -/
theorem claim_C6_witness :
    (ValidatePluginConfig cfgAuthBad).err ≠ none ∧
    (stepAuths cfgAuthBad).err =
      some (.parseRegistryURL ":foo" "missing protocol scheme") ∧
    (∃ u, urlParse "https://registry.example.com" = Except.ok u ∧
      ∃ rc, lookupA (ValidatePluginConfig cfgAuthMigrate).cfg.registry.configs
          (if u.scheme ≠ "" then u.host else "https://registry.example.com") =
        some rc ∧ rc.auth.isSome) :=
  ⟨claim_C6.1 cfgAuthBad (":foo", { username := "u" }) "missing protocol scheme"
      (by decide) (by rfl),
   claim_C6.2.1 cfgAuthBad ":foo" { username := "u" } [] "missing protocol scheme"
      (by decide) (by rfl),
   claim_C6.2.2.1 cfgAuthMigrate (by decide)
      ("https://registry.example.com", { username := "u", password := "p" })
      (by decide)⟩

/-- C10.  The legacy auth migration is frame-preserving on the per-host
config table: a key no auth entry migrates to keeps exactly its previous
value, and a key that is a migrated endpoint host gets only its auth field
replaced (by the last migrating entry), its previous TLS material — and the
absence of an entry's other data — being preserved. -/
theorem claim_C10 :
    ∀ c : PluginConfig, (ValidatePluginConfig c).err = none →
      ∀ k : String,
        (lastAuth c.registry.auths k = none →
          lookupA (ValidatePluginConfig c).cfg.registry.configs k =
            lookupA c.registry.configs k) ∧
        (∀ a, lastAuth c.registry.auths k = some a →
          lookupA (ValidatePluginConfig c).cfg.registry.configs k =
            some ⟨some a, tlsOf (lookupA c.registry.configs k)⟩) := by
  intro c h k
  have := final_configs_lookup c h k
  constructor
  · intro hl
    rw [hl] at this
    exact this
  · intro a hl
    rw [hl] at this
    exact this

/-- C10 witness: in the frame scenario the untouched `keep.com` entry is
unchanged and the migrated `a.com` entry keeps its TLS material while its
auth is replaced. -/
theorem claim_C10_witness :
    (lookupA (ValidatePluginConfig cfgFrame).cfg.registry.configs "keep.com" =
      lookupA cfgFrame.registry.configs "keep.com") ∧
    (lookupA (ValidatePluginConfig cfgFrame).cfg.registry.configs "a.com" =
      some ⟨some { username := "u", password := "p" },
        tlsOf (lookupA cfgFrame.registry.configs "a.com")⟩) :=
  ⟨(claim_C10 cfgFrame (by decide) "keep.com").1 (by decide),
   (claim_C10 cfgFrame (by decide) "a.com").2
     { username := "u", password := "p" } (by decide)⟩

/-! ## Lemmas: towards idempotence of a second validation run -/

theorem applySandboxDefault_engine (r : Runtime) :
    (applySandboxDefault r).engine = r.engine := by
  unfold applySandboxDefault; split_ifs <;> rfl

theorem applySandboxDefault_root (r : Runtime) :
    (applySandboxDefault r).root = r.root := by
  unfold applySandboxDefault; split_ifs <;> rfl

theorem applySandboxDefault_type (r : Runtime) :
    (applySandboxDefault r).type = r.type := by
  unfold applySandboxDefault; split_ifs <;> rfl

theorem applySandboxDefault_idem (r : Runtime) :
    applySandboxDefault (applySandboxDefault r) =
      applySandboxDefault r := by
  by_cases h : r.sandboxMode = ""
  · have hne : ({ r with sandboxMode := ModePodSandbox } : Runtime).sandboxMode
        ≠ "" := by
      show ModePodSandbox ≠ ""
      decide
    unfold applySandboxDefault
    rw [if_pos h, if_neg hne]
  · unfold applySandboxDefault
    rw [if_neg h, if_neg h]

theorem checkRuntime_err_congr (p q : Runtime)
    (he : q.engine = p.engine) (hr : q.root = p.root) (ht : q.type = p.type)
    (hp : q.privilegedWithoutHostDevices = p.privilegedWithoutHostDevices)
    (ha : q.privilegedWithoutHostDevicesAllDevicesAllowed =
      p.privilegedWithoutHostDevicesAllDevicesAllowed)
    (h : (checkRuntime p).2.2 = none) : (checkRuntime q).2.2 = none := by
  rw [checkRuntime_err_none_iff] at h ⊢
  rw [he, hr, ht, hp, ha]
  exact h

theorem checkRuntime_warns_of_ok (r : Runtime)
    (h : (checkRuntime r).2.2 = none) :
    (checkRuntime r).2.1 =
      (if r.engine ≠ "" then [Warning.runtimeEngineDeprecated] else []) ++
        (if r.root ≠ "" then [Warning.runtimeRootDeprecated] else []) := by
  rw [checkRuntime_err_none_iff] at h
  obtain ⟨he, hr, hp⟩ := h
  have hcond : ¬(r.privilegedWithoutHostDevices = false ∧
      r.privilegedWithoutHostDevicesAllDevicesAllowed = true) := by
    rintro ⟨hp1, hp2⟩
    have := hp (by simp [hp2])
    simp [hp1] at this
  unfold checkRuntime
  by_cases ht : r.type = RuntimeLinuxV1
  · by_cases h1 : r.engine = "" <;>
      by_cases h2 : r.root = "" <;>
        by_cases hm : r.sandboxMode = "" <;>
          simp [ht, h1, h2, hm, hcond]
  · have h1 : r.engine = "" := by by_contra hx; exact ht (he hx)
    have h2 : r.root = "" := by by_contra hx; exact ht (hr hx)
    by_cases hm : r.sandboxMode = "" <;> simp [ht, h1, h2, hm, hcond]

theorem checkRuntime_of_rel (p q : Runtime)
    (hrel : q = p ∨ q = applySandboxDefault p)
    (h : (checkRuntime p).2.2 = none) :
    checkRuntime q = (applySandboxDefault p, (checkRuntime p).2.1, none) := by
  rcases hrel with hq | hq
  · subst hq
    calc checkRuntime q =
        ((checkRuntime q).1, (checkRuntime q).2.1, (checkRuntime q).2.2) := rfl
      _ = (applySandboxDefault q, (checkRuntime q).2.1, none) := by
          rw [checkRuntime_fst_of_ok q h, h]
  · subst hq
    have hok : (checkRuntime (applySandboxDefault p)).2.2 = none :=
      checkRuntime_err_congr p _ (applySandboxDefault_engine p)
        (applySandboxDefault_root p) (applySandboxDefault_type p)
        (applySandboxDefault_priv p) (applySandboxDefault_allDevices p) h
    calc checkRuntime (applySandboxDefault p) =
        ((checkRuntime (applySandboxDefault p)).1,
          (checkRuntime (applySandboxDefault p)).2.1,
          (checkRuntime (applySandboxDefault p)).2.2) := rfl
      _ = (applySandboxDefault p, (checkRuntime p).2.1, none) := by
          rw [checkRuntime_fst_of_ok _ hok, applySandboxDefault_idem, hok,
            checkRuntime_warns_of_ok _ hok, checkRuntime_warns_of_ok _ h,
            applySandboxDefault_engine, applySandboxDefault_root]

theorem runtimesLoop_pointwise (l₁ l₂ : List (String × Runtime))
    (hrel : List.Forall₂ rerunRel l₁ l₂)
    (h : ∀ p ∈ l₁, (checkRuntime p.2).2.2 = none) :
    runtimesLoop l₂ = (mapValsA applySandboxDefault l₁,
      l₁.flatMap (fun p => (checkRuntime p.2).2.1), none) := by
  induction hrel with
  | nil => rfl
  | @cons p q l₁' l₂' hpq htail ih =>
    obtain ⟨hkey, hval⟩ := hpq
    have hokp : (checkRuntime p.2).2.2 = none := h p (List.mem_cons_self _ _)
    have hcq := checkRuntime_of_rel p.2 q.2 hval hokp
    have e2 : (q.1, q.2) = q := rfl
    rw [show (q :: l₂' : List (String × Runtime)) = (q.1, q.2) :: l₂' by rfl]
    rw [runtimesLoop_cons_ok q.1 q.2 (applySandboxDefault p.2)
      (checkRuntime p.2).2.1 l₂' hcq]
    rw [ih fun x hx => h x (List.mem_cons_of_mem _ hx)]
    simp only [mapValsA, List.flatMap_cons, ← hkey]

theorem forall₂_mapValsA_self (l : List (String × Runtime)) :
    List.Forall₂ rerunRel l (mapValsA applySandboxDefault l) := by
  induction l with
  | nil => exact List.Forall₂.nil
  | cons p rest ih =>
    obtain ⟨k, v⟩ := p
    exact List.Forall₂.cons ⟨rfl, Or.inr rfl⟩ ih

theorem forall₂_insertA_mapValsA (l : List (String × Runtime))
    (k : String) (v : Runtime) :
    List.Forall₂ rerunRel (insertA l k v)
      (insertA (mapValsA applySandboxDefault l) k v) := by
  induction l with
  | nil => exact List.Forall₂.cons ⟨rfl, Or.inl rfl⟩ List.Forall₂.nil
  | cons p rest ih =>
    obtain ⟨k₀, v₀⟩ := p
    by_cases h₀ : k₀ = k
    · simp only [insertA, mapValsA, if_pos h₀]
      exact List.Forall₂.cons ⟨rfl, Or.inl rfl⟩ (forall₂_mapValsA_self rest)
    · simp only [insertA, mapValsA, if_neg h₀]
      exact List.Forall₂.cons ⟨rfl, Or.inr rfl⟩ ih

theorem insertA_insertA {α : Type} (l : List (String × α)) (k : String)
    (v v' : α) : insertA (insertA l k v) k v' = insertA l k v' := by
  induction l with
  | nil => simp [insertA]
  | cons p rest ih =>
    obtain ⟨k₀, v₀⟩ := p
    by_cases h₀ : k₀ = k <;> simp [insertA, h₀, ih]

theorem final_hasTLS (c : PluginConfig)
    (h : (ValidatePluginConfig c).err = none) :
    hasDeprecatedTLS (ValidatePluginConfig c).cfg.registry.configs =
      hasDeprecatedTLS c.registry.configs := by
  rw [validate_cfg_of_ok c h]
  by_cases hA : c.registry.auths = []
  · have : midD c = midC c := by
      show (stepAuths (midC c)).cfg = _
      rw [stepAuths_of_empty (midC c) (by rw [midC_registry]; exact hA)]
    rw [this, midC_registry]
  · have : (midD c).registry.configs =
        (authsLoop c.registry.auths c.registry.configs).1 := by
      show (stepAuths (midC c)).cfg.registry.configs = _
      rw [stepAuths_cfg_of_nonempty (midC c) (by rw [midC_registry]; exact hA)]
      show (authsLoop (midC c).registry.auths (midC c).registry.configs).1 = _
      rw [midC_registry]
    rw [this, hasTLS_authsLoop]

theorem stepRuntimes_eq (x : PluginConfig) :
    stepRuntimes x = ⟨{ x with containerd := { x.containerd with
        runtimes := (runtimesLoop x.containerd.runtimes).1 } },
      (runtimesLoop x.containerd.runtimes).2.1,
      (runtimesLoop x.containerd.runtimes).2.2⟩ := by
  unfold stepRuntimes
  cases h : runtimesLoop x.containerd.runtimes with
  | mk a bc =>
    obtain ⟨b, e⟩ := bc
    rfl

theorem config_eta_runtimes (x : PluginConfig) :
    ({ x with containerd := { x.containerd with
        runtimes := x.containerd.runtimes } } : PluginConfig) = x := rfl

theorem config_eta (x : PluginConfig) :
    ({ x with containerd := { x.containerd with
        defaultRuntimeName := x.containerd.defaultRuntimeName,
        runtimes := x.containerd.runtimes } } : PluginConfig) = x := rfl

theorem runtimeTypeAt_record (x : PluginConfig) (n : String)
    (rts : List (String × Runtime)) (d : Runtime) :
    runtimeTypeAt ({ x with containerd := { x.containerd with
        defaultRuntimeName := n, runtimes := insertA rts n d } })
      ({ x with containerd := { x.containerd with
        defaultRuntimeName := n, runtimes := insertA rts n d } } :
        PluginConfig).containerd.defaultRuntimeName = d.type := by
  show (match lookupA (insertA rts n d) n with
    | some r => r.type
    | none => "") = d.type
  rw [lookupA_insertA_self]

set_option maxHeartbeats 2000000 in
/-- After a successful run whose legacy untrusted-runtime type was empty,
the second run's migrations and per-handler loop land back on the first
run's output: the loop pass is a no-op on the configuration, and the three
passes in between succeed again. -/
theorem second_run_key (c : PluginConfig)
    (hok : (ValidatePluginConfig c).err = none)
    (hU : c.containerd.untrustedWorkloadRuntime.type = "") :
    midC (midD c) = midD c ∧
    (stepDefaultRuntimeName (midB (midD c))).err = none ∧
    (stepDeprecatedFlags (midB (midD c))).err = none ∧
    (stepRuntimes (midB (midD c))).err = none := by
  obtain ⟨h1, h2, h3, h4, h5, h6, h7, h8, h9, h10⟩ := validate_ok_decomp c hok
  have h5' := (stepRuntimes_err_none_iff _).mp h5
  have e1 : stepUntrusted c = ⟨c, [], none⟩ := stepUntrusted_of_empty c hU
  have eBrw : midB c = (stepDefaultRuntime c).cfg := by
    show (stepDefaultRuntime (stepUntrusted c).cfg).cfg = _
    rw [e1]
  obtain ⟨nS, rtsS, cfgsS, eD⟩ := midD_shape c
  have P1 : (midD c).containerd.runtimes =
      mapValsA applySandboxDefault (midB c).containerd.runtimes := by
    rw [midD_containerd, midC_of_ok c h5']
  have P2 : (midD c).containerd.defaultRuntimeName =
      (midB c).containerd.defaultRuntimeName := by
    rw [midD_containerd, midC_of_ok c h5']
  have P3 : (midD c).containerd.defaultRuntime =
      c.containerd.defaultRuntime := by rw [eD]
  have P4 : (midD c).containerd.untrustedWorkloadRuntime.type = "" := by
    rw [eD]; exact hU
  have P5 : (midD c).systemdCgroup = c.systemdCgroup := by rw [eD]
  have P6 : (midD c).containerd.noPivot = c.containerd.noPivot := by rw [eD]
  obtain ⟨hNne, hNsome⟩ := (stepDefaultRuntimeName_err_none_iff _).mp h3
  have h4' := (stepDeprecatedFlags_err_none_iff _).mp h4
  have hBsys : (midB c).systemdCgroup = c.systemdCgroup := by
    obtain ⟨n, rts, eB⟩ := midB_shape c
    rw [eB]
  have hBnp : (midB c).containerd.noPivot = c.containerd.noPivot := by
    obtain ⟨n, rts, eB⟩ := midB_shape c
    rw [eB]
  have k1 : stepUntrusted (midD c) = ⟨midD c, [], none⟩ :=
    stepUntrusted_of_empty _ P4
  have eXrw : midB (midD c) = (stepDefaultRuntime (midD c)).cfg := by
    show (stepDefaultRuntime (stepUntrusted (midD c)).cfg).cfg = _
    rw [k1]
  by_cases hD : c.containerd.defaultRuntime.type = ""
  · -- The legacy default runtime is unset: the second migration is a no-op.
    have eB1 : midB c = c := by
      rw [eBrw, stepDefaultRuntime_of_empty c hD]
    have k2 : stepDefaultRuntime (midD c) = ⟨midD c, [], none⟩ :=
      stepDefaultRuntime_of_empty _ (by rw [P3]; exact hD)
    have eX : midB (midD c) = midD c := by rw [eXrw, k2]
    have hloop : runtimesLoop (midD c).containerd.runtimes =
        (mapValsA applySandboxDefault (midB c).containerd.runtimes,
          (midB c).containerd.runtimes.flatMap
            (fun p => (checkRuntime p.2).2.1), none) := by
      rw [P1]
      exact runtimesLoop_pointwise _ _
        (forall₂_mapValsA_self (midB c).containerd.runtimes) h5'
    refine ⟨?_, ?_, ?_, ?_⟩
    · show (stepRuntimes (midB (midD c))).cfg = midD c
      rw [eX, stepRuntimes_eq]
      show ({ midD c with containerd := { (midD c).containerd with
          runtimes := (runtimesLoop (midD c).containerd.runtimes).1 } } :
          PluginConfig) = _
      rw [hloop]
      show ({ midD c with containerd := { (midD c).containerd with
          runtimes := mapValsA applySandboxDefault
            (midB c).containerd.runtimes } } : PluginConfig) = _
      rw [← P1]
    · rw [eX, stepDefaultRuntimeName_err_none_iff]
      refine ⟨by rw [P2]; exact hNne, ?_⟩
      rw [P1, P2, lookupA_mapValsA]
      cases hx : lookupA (midB c).containerd.runtimes
          (midB c).containerd.defaultRuntimeName with
      | none => rw [hx] at hNsome; cases hNsome
      | some r => simp
    · rw [eX, stepDeprecatedFlags_err_none_iff]
      have htype : runtimeTypeAt (midD c)
          (midD c).containerd.defaultRuntimeName =
          runtimeTypeAt (midB c) (midB c).containerd.defaultRuntimeName := by
        unfold runtimeTypeAt
        rw [P1, P2, lookupA_mapValsA]
        cases hx : lookupA (midB c).containerd.runtimes
            (midB c).containerd.defaultRuntimeName with
        | none => rfl
        | some r => simp [applySandboxDefault_type]
      rw [P5, P6, htype, ← hBsys, ← hBnp]
      exact h4'
    · rw [eX, stepRuntimes_eq]
      show (runtimesLoop (midD c).containerd.runtimes).2.2 = none
      rw [hloop]
  · -- The legacy default runtime is set: the second run re-migrates it,
    -- and the per-handler loop re-defaults its sandbox mode.
    have eB2 : midB c = { c with containerd := { c.containerd with
        defaultRuntimeName := RuntimeDefault,
        runtimes := insertA c.containerd.runtimes RuntimeDefault
          c.containerd.defaultRuntime } } := by
      rw [eBrw, stepDefaultRuntime_of_migrate c hD]
    have k2 : stepDefaultRuntime (midD c) = ⟨{ midD c with containerd :=
        { (midD c).containerd with
          defaultRuntimeName := RuntimeDefault,
          runtimes := insertA (midD c).containerd.runtimes RuntimeDefault
            (midD c).containerd.defaultRuntime } },
        [.defaultRuntimeDeprecated], none⟩ :=
      stepDefaultRuntime_of_migrate _ (by rw [P3]; exact hD)
    have eX : midB (midD c) = { midD c with containerd :=
        { (midD c).containerd with
          defaultRuntimeName := RuntimeDefault,
          runtimes := insertA (midD c).containerd.runtimes RuntimeDefault
            (midD c).containerd.defaultRuntime } } := by rw [eXrw, k2]
    have hRX : insertA (midD c).containerd.runtimes RuntimeDefault
        (midD c).containerd.defaultRuntime =
        insertA (mapValsA applySandboxDefault c.containerd.runtimes)
          RuntimeDefault c.containerd.defaultRuntime := by
      rw [P1, P3, eB2]
      show insertA (mapValsA applySandboxDefault
        (insertA c.containerd.runtimes RuntimeDefault
          c.containerd.defaultRuntime)) RuntimeDefault
          c.containerd.defaultRuntime = _
      rw [mapValsA_insertA, insertA_insertA]
    have hrel : List.Forall₂ rerunRel (midB c).containerd.runtimes
        (insertA (midD c).containerd.runtimes RuntimeDefault
          (midD c).containerd.defaultRuntime) := by
      rw [hRX, eB2]
      show List.Forall₂ rerunRel
        (insertA c.containerd.runtimes RuntimeDefault
          c.containerd.defaultRuntime) _
      exact forall₂_insertA_mapValsA c.containerd.runtimes RuntimeDefault
        c.containerd.defaultRuntime
    have hloop : runtimesLoop (insertA (midD c).containerd.runtimes
        RuntimeDefault (midD c).containerd.defaultRuntime) =
        (mapValsA applySandboxDefault (midB c).containerd.runtimes,
          (midB c).containerd.runtimes.flatMap
            (fun p => (checkRuntime p.2).2.1), none) :=
      runtimesLoop_pointwise _ _ hrel h5'
    have hName : (midD c).containerd.defaultRuntimeName = RuntimeDefault := by
      rw [P2, eB2]
    have tX : runtimeTypeAt (midB (midD c))
        (midB (midD c)).containerd.defaultRuntimeName =
        c.containerd.defaultRuntime.type := by
      rw [eX, runtimeTypeAt_record (midD c) RuntimeDefault
        (midD c).containerd.runtimes (midD c).containerd.defaultRuntime, P3]
    have tB : runtimeTypeAt (midB c)
        (midB c).containerd.defaultRuntimeName =
        c.containerd.defaultRuntime.type := by
      rw [eB2, runtimeTypeAt_record c RuntimeDefault
        c.containerd.runtimes c.containerd.defaultRuntime]
    have sEq : (midB (midD c)).systemdCgroup = c.systemdCgroup := by
      rw [eX]; exact P5
    have nEq : (midB (midD c)).containerd.noPivot = c.containerd.noPivot := by
      rw [eX]; exact P6
    refine ⟨?_, ?_, ?_, ?_⟩
    · show (stepRuntimes (midB (midD c))).cfg = midD c
      rw [eX, stepRuntimes_eq]
      show ({ midD c with containerd := { (midD c).containerd with
          defaultRuntimeName := RuntimeDefault,
          runtimes := (runtimesLoop (insertA (midD c).containerd.runtimes
            RuntimeDefault (midD c).containerd.defaultRuntime)).1 } } :
          PluginConfig) = _
      rw [hloop]
      show ({ midD c with containerd := { (midD c).containerd with
          defaultRuntimeName := RuntimeDefault,
          runtimes := mapValsA applySandboxDefault
            (midB c).containerd.runtimes } } : PluginConfig) = _
      rw [← P1, ← hName]
    · rw [stepDefaultRuntimeName_err_none_iff]
      constructor
      · rw [eX]
        show RuntimeDefault ≠ ""
        decide
      · rw [eX]
        show (lookupA (insertA (midD c).containerd.runtimes RuntimeDefault
          (midD c).containerd.defaultRuntime) RuntimeDefault).isSome
        rw [lookupA_insertA_self]
        rfl
    · rw [stepDeprecatedFlags_err_none_iff]
      constructor
      · intro hs
        rw [tX, ← tB]
        exact h4'.1 (by rw [hBsys, ← sEq]; exact hs)
      · intro hn
        rw [tX, ← tB]
        exact h4'.2 (by rw [hBnp, ← nEq]; exact hn)
    · rw [eX, stepRuntimes_eq]
      show (runtimesLoop (insertA (midD c).containerd.runtimes RuntimeDefault
        (midD c).containerd.defaultRuntime)).2.2 = none
      rw [hloop]

/-- C3 counterexample.  Validation is not idempotent as claimed: a
configuration that passes with a non-empty legacy untrusted-workload runtime
type fails its second run with the conflict error (the first run inserted
the `untrusted` key and the legacy field is never cleared), and deprecation
warnings are emitted again on a second run (legacy default runtime). -/
theorem claim_C3_counterexample :
    (ValidatePluginConfig cfgUntrustedLegacy).err = none ∧
    (ValidatePluginConfig (ValidatePluginConfig cfgUntrustedLegacy).cfg).err =
      some .untrustedConflict ∧
    (ValidatePluginConfig (ValidatePluginConfig cfgLegacyDefault).cfg).warns =
      [.defaultRuntimeDeprecated] :=
  ⟨by decide, by decide, by decide⟩

set_option maxHeartbeats 1000000 in
/-- C3 (amended).  For a configuration that passed validation once and whose
legacy untrusted-workload runtime type is empty, a second run also succeeds
and returns the same configuration as a Go value (every field structurally
equal; the per-host configs map compared key-by-key, Go maps being
unordered); warnings for deprecated fields still present are simply emitted
again. -/
theorem claim_C3 :
    ∀ c : PluginConfig, (ValidatePluginConfig c).err = none →
      c.containerd.untrustedWorkloadRuntime.type = "" →
      (ValidatePluginConfig (ValidatePluginConfig c).cfg).err = none ∧
      pcEquiv (ValidatePluginConfig (ValidatePluginConfig c).cfg).cfg
        (ValidatePluginConfig c).cfg := by
  intro c hok hU
  obtain ⟨h1, h2, h3, h4, h5, h6, h7, h8, h9, h10⟩ := validate_ok_decomp c hok
  have hcfg : (ValidatePluginConfig c).cfg = midD c := validate_cfg_of_ok c hok
  obtain ⟨hCcp, h3', h4', h5c⟩ := second_run_key c hok hU
  obtain ⟨nS, rtsS, cfgsS, eD⟩ := midD_shape c
  have P4 : (midD c).containerd.untrustedWorkloadRuntime.type = "" := by
    rw [eD]; exact hU
  have P7 : (midD c).registry.auths = c.registry.auths := by rw [eD]
  have P8 : (midD c).registry.mirrors = c.registry.mirrors := by rw [eD]
  have P9 : (midD c).registry.configPath = c.registry.configPath := by rw [eD]
  have P10a : (midD c).streamIdleTimeout = c.streamIdleTimeout := by rw [eD]
  have P10b : (midD c).imagePullProgressTimeout =
      c.imagePullProgressTimeout := by rw [eD]
  have P10c : (midD c).drainExecSyncIOTimeout =
      c.drainExecSyncIOTimeout := by rw [eD]
  have P11 : hasDeprecatedTLS (midD c).registry.configs =
      hasDeprecatedTLS c.registry.configs := by
    have := final_hasTLS c hok
    rw [hcfg] at this
    exact this
  have k1 : stepUntrusted (midD c) = ⟨midD c, [], none⟩ :=
    stepUntrusted_of_empty _ P4
  have h6c := (stepRegistryDeprecated_err_none_iff (midC c)).mp h6
  rw [midC_registry] at h6c
  have h6' : (stepRegistryDeprecated (midD c)).err = none := by
    rw [stepRegistryDeprecated_err_none_iff, P8, P9, P11]
    exact h6c
  have h7c := (stepAuths_err_none_iff (midC c)).mp h7
  rw [midC_registry] at h7c
  have h7' : (stepAuths (midD c)).err = none := by
    rw [stepAuths_err_none_iff, P7]
    exact h7c
  obtain ⟨nT, rtsT, cfgsT, eT⟩ := midD_shape (midD c)
  have fEqa : (midD (midD c)).streamIdleTimeout = c.streamIdleTimeout :=
    (congrArg PluginConfig.streamIdleTimeout eT).trans P10a
  have fEqb : (midD (midD c)).imagePullProgressTimeout =
      c.imagePullProgressTimeout :=
    (congrArg PluginConfig.imagePullProgressTimeout eT).trans P10b
  have fEqc : (midD (midD c)).drainExecSyncIOTimeout =
      c.drainExecSyncIOTimeout :=
    (congrArg PluginConfig.drainExecSyncIOTimeout eT).trans P10c
  have h8' : (stepStreamIdleTimeout (midD (midD c))).err = none := by
    rw [stepStreamIdleTimeout_err_none_iff, fEqa]
    have := (stepStreamIdleTimeout_err_none_iff (midD c)).mp h8
    rw [P10a] at this
    exact this
  have h9' : (stepImagePullProgressTimeout (midD (midD c))).err = none := by
    rw [stepImagePullProgressTimeout_err_none_iff, fEqb]
    have := (stepImagePullProgressTimeout_err_none_iff (midD c)).mp h9
    rw [P10b] at this
    exact this
  have h10' : (stepDrainExecSync (midD (midD c))).err = none := by
    rw [stepDrainExecSync_err_none_iff, fEqc]
    have := (stepDrainExecSync_err_none_iff (midD c)).mp h10
    rw [P10c] at this
    exact this
  have h1' : (stepUntrusted (midD c)).err = none := by rw [k1]
  have h2' : (stepDefaultRuntime (stepUntrusted (midD c)).cfg).err = none :=
    stepDefaultRuntime_err _
  have h6'' : (stepRegistryDeprecated (midC (midD c))).err = none :=
    (congrArg (fun x => (stepRegistryDeprecated x).err) hCcp).trans h6'
  have h7'' : (stepAuths (midC (midD c))).err = none :=
    (congrArg (fun x => (stepAuths x).err) hCcp).trans h7'
  have hok2 : (ValidatePluginConfig (midD c)).err = none :=
    (validate_err_of_ok (midD c) h1' h2' h3' h4' h5c h6'' h7'' h8' h9').trans
      h10'
  have hgoal1 : (ValidatePluginConfig (ValidatePluginConfig c).cfg).err =
      (ValidatePluginConfig (midD c)).err :=
    congrArg (fun x => (ValidatePluginConfig x).err) hcfg
  refine ⟨hgoal1.trans hok2, ?_⟩
  rw [hcfg]
  have hcfg2 : (ValidatePluginConfig (midD c)).cfg = midD (midD c) :=
    validate_cfg_of_ok _ hok2
  rw [hcfg2]
  have eA : midD (midD c) = (stepAuths (midD c)).cfg := by
    show (stepAuths (midC (midD c))).cfg = _
    rw [hCcp]
  constructor
  · by_cases hA : c.registry.auths = []
    · have hid : stepAuths (midD c) = ⟨midD c, [], none⟩ :=
        stepAuths_of_empty _ (by rw [P7]; exact hA)
      rw [eA, hid]
    · have hne : (stepAuths (midD c)).cfg = { midD c with registry :=
          { (midD c).registry with configs := (authsLoop
            (midD c).registry.auths (midD c).registry.configs).1 } } :=
        stepAuths_cfg_of_nonempty _ (by rw [P7]; exact hA)
      rw [eA, hne]
  · intro k
    have L2 := final_configs_lookup (midD c) hok2 k
    rw [hcfg2, P7] at L2
    have L1 := final_configs_lookup c hok k
    rw [hcfg] at L1
    cases hl : lastAuth c.registry.auths k with
    | none =>
      rw [hl] at L2
      rw [L2]
    | some a =>
      rw [hl] at L2 L1
      rw [L2, L1]
      rfl

/-- C3 witness: the amended statement at the legacy-default scenario, which
passes with an empty legacy untrusted-runtime type. -/
theorem claim_C3_witness :
    (ValidatePluginConfig (ValidatePluginConfig cfgLegacyDefault).cfg).err =
      none ∧
    pcEquiv (ValidatePluginConfig
        (ValidatePluginConfig cfgLegacyDefault).cfg).cfg
      (ValidatePluginConfig cfgLegacyDefault).cfg :=
  claim_C3 cfgLegacyDefault (by decide) (by decide)

end ContainerdCri
